import Mathlib

/-!
Verification of the budget-planner computation core (web/src/MyBudget.tsx and
src/server.ts) against its natural-language specification.

Numbers are modelled as exact rationals.  JavaScript's Math.round (round half
toward positive infinity) is modelled by jsRound.  Random ids produced by
generateId() are modelled by the fixed placeholder newId: no property below
depends on the value of a freshly generated id.
-/

namespace MyBudget

/-- jsRound models JavaScript's Math.round: round to the nearest integer,
ties toward positive infinity. -/
def jsRound (x : ℚ) : ℤ := ⌊x + 1/2⌋

/-- round2 models Math.round(x * 100) / 100 from computeValues' yearly branch:
round to 2 decimal places with ties toward positive infinity. -/
def round2 (x : ℚ) : ℚ := (jsRound (x * 100) : ℚ) / 100

/-- roundAway is the rounding mode named by the spec: round half away from
zero.  It is written from the spec's words, to be compared with jsRound. -/
def roundAway (x : ℚ) : ℤ := if 0 ≤ x then ⌊x + 1/2⌋ else -⌊-x + 1/2⌋

/-- round2away rounds to 2 decimal places, half away from zero; written from
the spec's words. -/
def round2away (x : ℚ) : ℚ := (roundAway (x * 100) : ℚ) / 100

/-- Frequency of a line item, from MyBudget.tsx. -/
inductive Frequency
  | monthly
  | yearly
  | one_time
deriving DecidableEq, Repr

/-- AssetType of a line item, from MyBudget.tsx. -/
inductive AssetType
  | manual
  | crypto
  | stock
deriving DecidableEq, Repr

/-- BudgetItem, from MyBudget.tsx.  Optional TypeScript fields are Options. -/
structure BudgetItem where
  id : String
  name : String
  amount : ℚ
  frequency : Frequency
  totalValue : ℚ
  monthlyValue : ℚ
  quantity : Option ℚ := none
  notes : Option String := none
  assetType : Option AssetType := none
  ticker : Option String := none
  livePrice : Option ℚ := none
deriving DecidableEq, Repr

/-- Budget, from MyBudget.tsx.  Timestamps are naturals. -/
structure Budget where
  id : String
  name : String
  income : List BudgetItem
  expenses : List BudgetItem
  assets : List BudgetItem
  nonLiquidAssets : List BudgetItem
  retirement : List BudgetItem
  liabilities : List BudgetItem
  nonLiquidDiscount : ℚ
  lastPriceRefresh : Option ℕ := none
  createdAt : ℕ
  updatedAt : ℕ
deriving DecidableEq, Repr

/-- newId stands for the random string produced by generateId(). -/
def newId : String := "id"

/-- emptyBudget, from MyBudget.tsx (Date.now() passed in as now). -/
def emptyBudget (now : ℕ) : Budget :=
  { id := newId, name := "My Budget Plan", income := [], expenses := [],
    assets := [], nonLiquidAssets := [], retirement := [], liabilities := [],
    nonLiquidDiscount := 25, lastPriceRefresh := none,
    createdAt := now, updatedAt := now }

/-- Values is the record returned by computeValues. -/
structure Values where
  totalValue : ℚ
  monthlyValue : ℚ
deriving DecidableEq, Repr

/-- computeValues, from MyBudget.tsx line 116: the frequency normalizer. -/
def computeValues (amount : ℚ) (frequency : Frequency) : Values :=
  match frequency with
  | .monthly => ⟨amount * 12, amount⟩
  | .yearly => ⟨amount, round2 (amount / 12)⟩
  | .one_time => ⟨amount, 0⟩

/-- mi, from MyBudget.tsx line 205: helper building a recurring item.  The
source's default frequency argument is passed explicitly here.  Note its
yearly branch uses Math.round(amount / 12) (whole dollars), unlike
computeValues. -/
def mi (name : String) (amount : ℚ) (freq : Frequency) : BudgetItem :=
  { id := newId, name := name, amount := amount, frequency := freq,
    totalValue :=
      match freq with
      | .monthly => amount * 12
      | .yearly => amount
      | .one_time => amount,
    monthlyValue :=
      match freq with
      | .monthly => amount
      | .yearly => (jsRound (amount / 12) : ℚ)
      | .one_time => 0 }

/-- mia, from MyBudget.tsx line 211: helper building a one-time / asset item. -/
def mia (name : String) (amount : ℚ) : BudgetItem :=
  { id := newId, name := name, amount := amount, frequency := .one_time,
    totalValue := amount, monthlyValue := 0 }

/-- itemConsistent states the derived-field invariant for one item: the stored
totalValue and monthlyValue agree with the frequency normalizer. -/
def itemConsistent (it : BudgetItem) : Prop :=
  it.totalValue = (computeValues it.amount it.frequency).totalValue ∧
    it.monthlyValue = (computeValues it.amount it.frequency).monthlyValue

instance (it : BudgetItem) : Decidable (itemConsistent it) := by
  unfold itemConsistent; infer_instance

-- Claim C1 -------------------------------------------------------------------

/-- C1 (counterexample): the claim says the yearly branch rounds
half away from zero.  At amount = -0.06 (yearly), amount/12 = -0.005;
computeValues returns 0 (Math.round rounds the tie -0.5 up to -0), while
round-half-away-from-zero yields -0.01.  So the claim as stated is false. -/
theorem computeValues_yearly_not_roundAway :
    (computeValues (-6/100) .yearly).monthlyValue = 0 ∧
      round2away ((-6/100) / 12) = -1/100 ∧ (0 : ℚ) ≠ -1/100 := by
  refine ⟨?_, ?_, by norm_num⟩
  · show round2 ((-6/100) / 12) = 0
    norm_num [round2, jsRound]
  · norm_num [round2away, roundAway]

/-- C1 (amended): computeValues accepts every rational amount, zero and
negative included, with no error: Monthly gives total = amount*12 and
monthly = amount; Yearly gives total = amount and monthly = amount/12
rounded to 2 decimals with ties toward positive infinity (JavaScript
Math.round); OneTime gives total = amount and monthly = 0; and for every
nonnegative amount the Yearly rounding agrees with round-half-away-from-zero. -/
theorem computeValues_spec (amount : ℚ) :
    computeValues amount .monthly = ⟨amount * 12, amount⟩ ∧
    computeValues amount .yearly = ⟨amount, round2 (amount / 12)⟩ ∧
    computeValues amount .one_time = ⟨amount, 0⟩ ∧
    (0 ≤ amount → round2 (amount / 12) = round2away (amount / 12)) := by
  refine ⟨rfl, rfl, rfl, fun h => ?_⟩
  have h12 : (0 : ℚ) ≤ amount / 12 * 100 := by positivity
  simp only [round2, round2away, roundAway, jsRound, if_pos h12]

/-- C1 witness: computeValues_spec applied at amount = 5000, discharging the
nonnegativity hypothesis of the rounding-agreement clause. -/
theorem computeValues_spec_witness :
    (0 : ℚ) ≤ 5000 ∧ round2 (5000 / 12) = round2away (5000 / 12) :=
  ⟨by norm_num, (computeValues_spec 5000).2.2.2 (by norm_num)⟩

-- Widget summary engine ------------------------------------------------------

/-- sumBy models List.reduce((s, i) => s + f(i), 0). -/
def sumBy (f : BudgetItem → ℚ) (l : List BudgetItem) : ℚ :=
  l.foldl (fun s i => s + f i) 0

/-- Summary collects the quantities computed in SummarySection
(MyBudget.tsx lines 877-908). -/
structure Summary where
  totalMonthlyIncome : ℚ
  totalMonthlyExpenses : ℚ
  totalMonthlyLiabilityPayments : ℚ
  monthlyNet : ℚ
  annualNet : ℚ
  totalLiquidAssets : ℚ
  totalNonLiquidAssets : ℚ
  totalRetirement : ℚ
  nonLiquidAtDiscount : ℚ
  oneTimeLiabilities : ℚ
  totalLiabilities : ℚ
  liquidAfterLiabilities : ℚ
  netWorth : ℚ
  monthlyBurn : ℚ
  runwayMonths : Option ℚ
  savingsRate : ℚ
deriving DecidableEq, Repr

/-- summarize, from SummarySection in MyBudget.tsx lines 877-908. -/
def summarize (b : Budget) : Summary :=
  let totalMonthlyIncome := sumBy (fun i => i.monthlyValue) b.income
  let totalMonthlyExpenses := sumBy (fun i => i.monthlyValue) b.expenses
  let totalMonthlyLiabilityPayments := sumBy (fun i => i.monthlyValue) b.liabilities
  let monthlyNet := totalMonthlyIncome - totalMonthlyExpenses - totalMonthlyLiabilityPayments
  let totalLiquidAssets := sumBy (fun i => i.totalValue) b.assets
  let totalNonLiquidAssets := sumBy (fun i => i.totalValue) b.nonLiquidAssets
  let totalRetirement := sumBy (fun i => i.totalValue) b.retirement
  let nonLiquidAtDiscount := totalNonLiquidAssets * (1 - b.nonLiquidDiscount / 100)
  let oneTimeLiabilities :=
    sumBy (fun i => i.totalValue) (b.liabilities.filter (fun i => i.frequency = .one_time))
  let liquidAfterLiabilities := totalLiquidAssets - oneTimeLiabilities
  let monthlyBurn := totalMonthlyExpenses + totalMonthlyLiabilityPayments - totalMonthlyIncome
  let liquidForRunway := max 0 liquidAfterLiabilities
  { totalMonthlyIncome := totalMonthlyIncome
    totalMonthlyExpenses := totalMonthlyExpenses
    totalMonthlyLiabilityPayments := totalMonthlyLiabilityPayments
    monthlyNet := monthlyNet
    annualNet := monthlyNet * 12
    totalLiquidAssets := totalLiquidAssets
    totalNonLiquidAssets := totalNonLiquidAssets
    totalRetirement := totalRetirement
    nonLiquidAtDiscount := nonLiquidAtDiscount
    oneTimeLiabilities := oneTimeLiabilities
    totalLiabilities := sumBy (fun i => i.totalValue) b.liabilities
    liquidAfterLiabilities := liquidAfterLiabilities
    netWorth := liquidAfterLiabilities + nonLiquidAtDiscount + totalRetirement
    monthlyBurn := monthlyBurn
    runwayMonths :=
      if 0 < monthlyBurn ∧ 0 < liquidForRunway
      then some (liquidForRunway / monthlyBurn) else none
    savingsRate :=
      if 0 < totalMonthlyIncome then monthlyNet / totalMonthlyIncome * 100 else 0 }

-- Server compute-summary path ------------------------------------------------

/-- numOr models JavaScript's Number(x) || d on an optional numeric field:
an absent field or a zero value falls back to the default. -/
def numOr (x : Option ℚ) (d : ℚ) : ℚ :=
  match x with
  | none => d
  | some v => if v = 0 then d else v

/-- ServerArgs are the numeric fields read by computeSummary in server.ts. -/
structure ServerArgs where
  budget_name : Option String := none
  monthly_income : Option ℚ := none
  monthly_expenses : Option ℚ := none
  liquid_assets : Option ℚ := none
  nonliquid_assets : Option ℚ := none
  retirement_savings : Option ℚ := none
  liabilities : Option ℚ := none
  nonliquid_discount : Option ℚ := none
deriving DecidableEq, Repr

/-- ServerSummary is the record returned by computeSummary in server.ts. -/
structure ServerSummary where
  budget_name : Option String
  monthly_income : ℚ
  monthly_expenses : ℚ
  monthly_net : ℚ
  annual_net : ℚ
  liquid_assets : ℚ
  nonliquid_assets : ℚ
  nonliquid_at_discount : ℚ
  retirement_savings : ℚ
  liabilities : ℚ
  liquid_available : ℚ
  net_worth : ℚ
  runway_months : Option ℚ
deriving DecidableEq, Repr

/-- computeSummary, from server.ts lines 126-161.  Note line 139 clamps
liquid_available at 0 with Math.max. -/
def computeSummary (args : ServerArgs) : ServerSummary :=
  let monthlyIncome := numOr args.monthly_income 0
  let monthlyExpenses := numOr args.monthly_expenses 0
  let liquidAssets := numOr args.liquid_assets 0
  let nonliquidAssets := numOr args.nonliquid_assets 0
  let retirementSavings := numOr args.retirement_savings 0
  let liabilities := numOr args.liabilities 0
  let nonliquidDiscount := numOr args.nonliquid_discount 25
  let monthlyNet := monthlyIncome - monthlyExpenses
  let nonliquidAtDiscount := nonliquidAssets * (1 - nonliquidDiscount / 100)
  let liquidAvailable := max 0 (liquidAssets - liabilities)
  let netWorth := liquidAvailable + nonliquidAtDiscount + retirementSavings
  let monthlyBurn := monthlyExpenses - monthlyIncome
  { budget_name := args.budget_name
    monthly_income := monthlyIncome
    monthly_expenses := monthlyExpenses
    monthly_net := monthlyNet
    annual_net := monthlyNet * 12
    liquid_assets := liquidAssets
    nonliquid_assets := nonliquidAssets
    nonliquid_at_discount := nonliquidAtDiscount
    retirement_savings := retirementSavings
    liabilities := liabilities
    liquid_available := liquidAvailable
    net_worth := netWorth
    runway_months :=
      if 0 < monthlyBurn ∧ 0 < liquidAvailable
      then some (liquidAvailable / monthlyBurn) else none }

-- Claim C3 -------------------------------------------------------------------

/-- scenarioBudget is the scenario of the claim: liquid assets totaling 10000
and a single OneTime liability of 12000, nothing else. -/
def scenarioBudget : Budget :=
  { emptyBudget 0 with
    assets := [mia "Savings Account" 10000],
    liabilities := [mia "Debt" 12000] }

/-- scenarioArgs is the same scenario presented to the server path. -/
def scenarioArgs : ServerArgs :=
  { liquid_assets := some 10000, liabilities := some 12000 }

/-- C3 (counterexample): the claim says the scenario (liquid 10000, one
OneTime liability 12000) reports liquidAvailable = -2000 and netWorth = -2000
in the server's compute-summary-from-fields path as well; but server.ts
clamps liquid_available at 0 (Math.max(0, ...)), so the server reports 0 and
net_worth 0, not -2000. -/
theorem computeSummary_clamps_liquid :
    (computeSummary scenarioArgs).liquid_available = 0 ∧
      (computeSummary scenarioArgs).net_worth = 0 ∧
      (0 : ℚ) ≠ -2000 := by
  refine ⟨?_, ?_, by norm_num⟩ <;> simp [computeSummary, scenarioArgs, numOr] <;> norm_num

/-- C3 (amended): the widget summary reports liquidAvailable = totalLiquid
minus oneTimeLiabilities without flooring and netWorth = liquidAvailable +
nonLiquidAtDiscount + totalRetirement without clamping, so in the scenario
(liquid 10000, one OneTime liability 12000) it reports -2000 for both; the
server's compute-summary-from-fields path instead clamps liquidAvailable at 0
and reports liquid_available = 0 and net_worth = 0 in the same scenario. -/
theorem summary_negative_not_clamped :
    (∀ b : Budget,
        (summarize b).netWorth =
          (summarize b).liquidAfterLiabilities + (summarize b).nonLiquidAtDiscount +
            (summarize b).totalRetirement) ∧
      (summarize scenarioBudget).liquidAfterLiabilities = -2000 ∧
      (summarize scenarioBudget).netWorth = -2000 ∧
      (computeSummary scenarioArgs).liquid_available = 0 ∧
      (computeSummary scenarioArgs).net_worth = 0 := by
  refine ⟨fun b => rfl, ?_, ?_, ?_, ?_⟩ <;>
    simp [summarize, computeSummary, sumBy, scenarioBudget, scenarioArgs,
      emptyBudget, mia, numOr] <;> norm_num

-- Claim C4 -------------------------------------------------------------------

theorem sumBy_foldl (f : BudgetItem → ℚ) (l : List BudgetItem) (a : ℚ) :
    l.foldl (fun s i => s + f i) a = a + (l.map f).sum := by
  induction l generalizing a with
  | nil => simp
  | cons x t ih => simp [ih (a + f x)]; ring

theorem sumBy_eq (f : BudgetItem → ℚ) (l : List BudgetItem) :
    sumBy f l = (l.map f).sum := by
  simpa using sumBy_foldl f l 0

theorem monthly_sum_skips_one_time (l : List BudgetItem)
    (hc : ∀ it ∈ l, itemConsistent it) :
    (l.map (fun i => i.monthlyValue)).sum =
      ((l.filter (fun i => ¬ i.frequency = .one_time)).map
        (fun i => i.monthlyValue)).sum := by
  induction l with
  | nil => rfl
  | cons a t ih =>
    have ha := hc a (List.mem_cons_self a t)
    have ht : ∀ it ∈ t, itemConsistent it :=
      fun it hit => hc it (List.mem_cons_of_mem a hit)
    by_cases hfa : a.frequency = .one_time
    · have hz : a.monthlyValue = 0 := by
        have h2 := ha.2
        rw [hfa] at h2
        simpa [computeValues] using h2
      simp [List.filter_cons, hfa, hz, ih ht]
    · simp [List.filter_cons, hfa, ih ht]

/-- C4: the summary partitions liabilities by frequency: oneTimeLiabilities
sums totalValue over exactly the OneTime items, and is unchanged when a
Monthly liability is added (or, read right to left, removed);
monthlyLiabilityPayments sums monthlyValue over all liability items, and
when the liability items satisfy the derived-field invariant the OneTime
items contribute 0 to it, so it equals the sum over the non-OneTime items. -/
theorem liability_partition (b : Budget) (extra : BudgetItem)
    (hm : extra.frequency = .monthly)
    (hc : ∀ it ∈ b.liabilities, itemConsistent it) :
    (summarize b).oneTimeLiabilities =
        sumBy (fun i => i.totalValue)
          (b.liabilities.filter (fun i => i.frequency = .one_time)) ∧
      (summarize { b with liabilities := b.liabilities ++ [extra] }).oneTimeLiabilities =
        (summarize b).oneTimeLiabilities ∧
      (summarize b).totalMonthlyLiabilityPayments =
        sumBy (fun i => i.monthlyValue) b.liabilities ∧
      (summarize b).totalMonthlyLiabilityPayments =
        sumBy (fun i => i.monthlyValue)
          (b.liabilities.filter (fun i => ¬ i.frequency = .one_time)) := by
  refine ⟨rfl, ?_, rfl, ?_⟩
  · show sumBy (fun i => i.totalValue)
        ((b.liabilities ++ [extra]).filter (fun i => i.frequency = .one_time)) = _
    rw [List.filter_append]
    have he : [extra].filter (fun i => decide (i.frequency = Frequency.one_time)) = [] := by
      simp [List.filter, hm]
    rw [he, List.append_nil]
    rfl
  · show sumBy (fun i => i.monthlyValue) b.liabilities = _
    rw [sumBy_eq, sumBy_eq]
    exact monthly_sum_skips_one_time b.liabilities hc

/-- C4 witness: liability_partition applied to a concrete mixed-frequency
budget (one OneTime liability of 12000 with monthlyValue 0, to which a
Monthly liability of 50 is added). -/
theorem liability_partition_witness :
    (mi "Car Loan" 50 .monthly).frequency = .monthly ∧
      (summarize { scenarioBudget with
          liabilities := scenarioBudget.liabilities ++ [mi "Car Loan" 50 .monthly]
        }).oneTimeLiabilities = (summarize scenarioBudget).oneTimeLiabilities :=
  ⟨by decide,
    (liability_partition scenarioBudget (mi "Car Loan" 50 .monthly) (by decide)
      (by decide)).2.1⟩

-- Claim C5 -------------------------------------------------------------------

/-- C5: the widget summary's runwayMonths equals liquidAvailable/monthlyBurn
exactly when both liquidAvailable (liquid minus one-time liabilities) and
monthlyBurn are positive, and is none (absent) otherwise — in particular
whenever monthlyBurn <= 0, however large liquid assets are, and whenever
liquidAvailable <= 0; the server's compute-summary path behaves the same
with its reported liquid_available and burn = expenses - income.  Absence is
the sentinel: no zero, NaN or exception. -/
theorem runway_sentinel (b : Budget) (args : ServerArgs) :
    ((summarize b).monthlyBurn ≤ 0 → (summarize b).runwayMonths = none) ∧
      ((summarize b).liquidAfterLiabilities ≤ 0 → (summarize b).runwayMonths = none) ∧
      (0 < (summarize b).monthlyBurn → 0 < (summarize b).liquidAfterLiabilities →
        (summarize b).runwayMonths =
          some ((summarize b).liquidAfterLiabilities / (summarize b).monthlyBurn)) ∧
      ((computeSummary args).monthly_expenses - (computeSummary args).monthly_income ≤ 0 →
        (computeSummary args).runway_months = none) ∧
      (0 < (computeSummary args).monthly_expenses - (computeSummary args).monthly_income →
        0 < (computeSummary args).liquid_available →
        (computeSummary args).runway_months =
          some ((computeSummary args).liquid_available /
            ((computeSummary args).monthly_expenses - (computeSummary args).monthly_income))) := by
  refine ⟨?_, ?_, ?_, ?_, ?_⟩
  · intro h
    simp only [summarize] at h ⊢
    exact if_neg (fun hc => absurd hc.1 (not_lt.mpr h))
  · intro h
    simp only [summarize] at h ⊢
    exact if_neg (fun hc => absurd hc.2 (not_lt.mpr (max_le le_rfl h)))
  · intro hb hl
    simp only [summarize] at hb hl ⊢
    rw [max_eq_right (le_of_lt hl), if_pos ⟨hb, hl⟩]
  · intro h
    simp only [computeSummary] at h ⊢
    exact if_neg (fun hc => absurd hc.1 (not_lt.mpr h))
  · intro hb hl
    simp only [computeSummary] at hb hl ⊢
    rw [if_pos ⟨hb, hl⟩]

/-- C5 witness: runway_sentinel applied to the scenario budget, whose burn is
zero while liquid assets are positive: runway is absent. -/
theorem runway_sentinel_witness :
    (summarize scenarioBudget).monthlyBurn ≤ 0 ∧
      (summarize scenarioBudget).runwayMonths = none :=
  ⟨by norm_num [summarize, sumBy, scenarioBudget, emptyBudget, mia],
    (runway_sentinel scenarioBudget {}).1
      (by norm_num [summarize, sumBy, scenarioBudget, emptyBudget, mia])⟩

-- String helpers for the reconciliation engine --------------------------------

/-- strStarts p l tells whether l starts with the run p (helper for the
substring test). -/
def strStarts : List Char → List Char → Bool
  | [], _ => true
  | _ :: _, [] => false
  | a :: p, b :: l => a == b && strStarts p l

/-- hasSub l p tells whether l contains p as a contiguous run. -/
def hasSub : List Char → List Char → Bool
  | [], p => strStarts p []
  | a :: t, p => strStarts p (a :: t) || hasSub t p

/-- strIncl s t models JavaScript's s.includes(t). -/
def strIncl (s t : String) : Bool := hasSub s.data t.data

/-- lowerChars lowercases a character list (JavaScript toLowerCase, modelled
character by character; structural so that proofs can evaluate it). -/
def lowerChars : List Char → List Char
  | [] => []
  | c :: t => c.toLower :: lowerChars t

/-- upperChars uppercases a character list (JavaScript toUpperCase). -/
def upperChars : List Char → List Char
  | [] => []
  | c :: t => c.toUpper :: upperChars t

/-- strLower models JavaScript's toLowerCase(). -/
def strLower (s : String) : String := String.mk (lowerChars s.data)

/-- strUpper models JavaScript's toUpperCase(). -/
def strUpper (s : String) : String := String.mk (upperChars s.data)

/-- isWordChar models the regex word-character class [A-Za-z0-9_]. -/
def isWordChar (c : Char) : Bool := c.isAlphanum || c == '_'

/-- wordAt w l: l starts with w and the next character (if any) is not a
word character (right word boundary). -/
def wordAt (w l : List Char) : Bool :=
  strStarts w l &&
    (match l.drop w.length with
     | [] => true
     | c :: _ => !isWordChar c)

/-- hasWordFrom w atB l: some position of l, preceded by a word boundary,
matches w followed by a word boundary; atB says whether the current position
is at a boundary. -/
def hasWordFrom (w : List Char) : Bool → List Char → Bool
  | atB, [] => atB && wordAt w []
  | atB, c :: t => (atB && wordAt w (c :: t)) || hasWordFrom w (!isWordChar c) t

/-- testWordRent s models the case-insensitive whole-word regex test for
"rent" used by the homeowner context flag. -/
def testWordRent (s : String) : Bool :=
  hasWordFrom "rent".data true (lowerChars s.data)

-- Patch and truthiness --------------------------------------------------------

/-- truthyQ models JavaScript truthiness of an optional numeric field. -/
def truthyQ (x : Option ℚ) : Bool :=
  match x with
  | none => false
  | some v => decide (¬ v = 0)

/-- truthyS models JavaScript truthiness of an optional string field. -/
def truthyS (x : Option String) : Bool :=
  match x with
  | none => false
  | some s => decide (¬ s = "")

/-- truthyB models JavaScript truthiness of an optional boolean field. -/
def truthyB (x : Option Bool) : Bool := x.getD false

/-- Patch models the initialData record consumed by hydrateFromInitialData:
the flat field-name to value map produced by the tool layer.  Absent fields
are none.  The crypto and stock ticker lists arrive as comma-separated
strings, as in the source. -/
structure Patch where
  preset : Option String := none
  budget_name : Option String := none
  is_unemployed : Option Bool := none
  is_homeowner : Option Bool := none
  num_children : Option ℚ := none
  monthly_income : Option ℚ := none
  annual_income : Option ℚ := none
  salary : Option ℚ := none
  side_income : Option ℚ := none
  rental_income : Option ℚ := none
  social_security : Option ℚ := none
  pension_income : Option ℚ := none
  investment_income : Option ℚ := none
  rent : Option ℚ := none
  mortgage_payment : Option ℚ := none
  utilities : Option ℚ := none
  groceries : Option ℚ := none
  car_payment : Option ℚ := none
  car_insurance : Option ℚ := none
  health_insurance : Option ℚ := none
  phone_bill : Option ℚ := none
  internet : Option ℚ := none
  childcare : Option ℚ := none
  subscriptions : Option ℚ := none
  dining_out : Option ℚ := none
  transportation : Option ℚ := none
  monthly_expenses : Option ℚ := none
  checking_balance : Option ℚ := none
  savings_balance : Option ℚ := none
  emergency_fund : Option ℚ := none
  investment_balance : Option ℚ := none
  crypto_tickers : Option String := none
  has_crypto : Option Bool := none
  crypto_balance : Option ℚ := none
  stock_tickers : Option String := none
  has_stocks : Option Bool := none
  liquid_assets : Option ℚ := none
  home_value : Option ℚ := none
  car_value : Option ℚ := none
  jewelry_collectibles : Option ℚ := none
  business_equity : Option ℚ := none
  nonliquid_assets : Option ℚ := none
  nonliquid_discount : Option ℚ := none
  balance_401k : Option ℚ := none
  roth_ira : Option ℚ := none
  traditional_ira : Option ℚ := none
  pension_fund : Option ℚ := none
  balance_403b : Option ℚ := none
  sep_ira : Option ℚ := none
  retirement_savings : Option ℚ := none
  liabilities : Option ℚ := none
  mortgage_balance : Option ℚ := none
  student_loans : Option ℚ := none
  car_loan : Option ℚ := none
  credit_card_debt : Option ℚ := none
  personal_loan : Option ℚ := none
  medical_debt : Option ℚ := none
deriving DecidableEq, Repr

-- Reconciliation helpers (MyBudget.tsx lines 1186-1208) ------------------------

/-- updateFirst rewrites the first element satisfying pred (the in-place
mutation of the first found / findIndex match in the source). -/
def updateFirst (pred : BudgetItem → Bool) (f : BudgetItem → BudgetItem) :
    List BudgetItem → List BudgetItem
  | [] => []
  | a :: t => if pred a then f a :: t else a :: updateFirst pred f t

/-- overwriteAmount is the shared overwrite used by findOrAdd and upsert:
set amount and recompute derived fields with the item's existing frequency. -/
def overwriteAmount (amount : ℚ) (i : BudgetItem) : BudgetItem :=
  { i with
    amount := amount,
    totalValue := (computeValues amount i.frequency).totalValue,
    monthlyValue := (computeValues amount i.frequency).monthlyValue }

/-- findOrAdd, from MyBudget.tsx line 1186: exact (case-insensitive) name
match; on a match overwrite the first matching item's amount, else append a
new item built by mia (one_time) or mi. -/
def findOrAdd (arr : List BudgetItem) (name : String) (amount : ℚ)
    (freq : Frequency) : List BudgetItem :=
  let pred := fun (i : BudgetItem) => strLower i.name == strLower name
  if arr.any pred then updateFirst pred (overwriteAmount amount) arr
  else arr ++ [if freq = .one_time then mia name amount else mi name amount freq]

/-- upsert, from MyBudget.tsx line 1198: loose name match (case-insensitive
substring in either direction); on a match overwrite the first matching
item's amount keeping its frequency, else append a new item. -/
def upsert (arr : List BudgetItem) (name : String) (amount : ℚ)
    (freq : Frequency) : List BudgetItem :=
  let lc := strLower name
  let pred := fun (i : BudgetItem) => strIncl (strLower i.name) lc || strIncl lc (strLower i.name)
  if arr.any pred then updateFirst pred (overwriteAmount amount) arr
  else arr ++ [if freq = .one_time then mia name amount else mi name amount freq]

/-- upsertIf applies upsert when the optional patch field is truthy
(mirrors the if (data.field) guards). -/
def upsertIf (x : Option ℚ) (arr : List BudgetItem) (name : String)
    (freq : Frequency) : List BudgetItem :=
  match x with
  | none => arr
  | some v => if v = 0 then arr else upsert arr name v freq

-- Reconciliation pipeline (hydrateFromInitialData, MyBudget.tsx 1177-1439) ----
-- The body of hydrateFromInitialData after base selection is split here into
-- one definition per source block, applied in source order by reconcile.

/-- scaleWithComputeValues is the proportional-scaling map body used for
income, expenses and liabilities: amount := Math.round(amount * ratio), then
recompute both derived fields with computeValues. -/
def scaleWithComputeValues (ratio : ℚ) (i : BudgetItem) : BudgetItem :=
  let newAmt : ℚ := (jsRound (i.amount * ratio) : ℤ)
  { i with
    amount := newAmt,
    totalValue := (computeValues newAmt i.frequency).totalValue,
    monthlyValue := (computeValues newAmt i.frequency).monthlyValue }

/-- scaleAssetStyle is the proportional-scaling map body used for liquid
assets, non-liquid assets and retirement: amount := Math.round(amount *
ratio), totalValue := amount, monthlyValue := 0. -/
def scaleAssetStyle (ratio : ℚ) (i : BudgetItem) : BudgetItem :=
  let newAmt : ℚ := (jsRound (i.amount * ratio) : ℤ)
  { i with
    amount := newAmt,
    totalValue := newAmt,
    monthlyValue := 0 }

/-- stepName: the budget_name override (line 1225). -/
def stepName (p : Patch) (b : Budget) : Budget :=
  if truthyS p.budget_name then { b with name := p.budget_name.getD b.name } else b

/-- stepUnemployed: the is_unemployed context flag (lines 1228-1236): zero
all income amounts (recomputing derived fields) and ensure an Emergency Fund
asset exists when none matches /emergency/i. -/
def stepUnemployed (p : Patch) (b : Budget) : Budget :=
  if truthyB p.is_unemployed then
    let b1 :=
      if 0 < b.income.length then
        { b with income := b.income.map (overwriteAmount 0) }
      else b
    if b1.assets.any (fun a => strIncl (strLower a.name) "emergency") then b1
    else { b1 with assets := findOrAdd b1.assets "Emergency Fund" 0 .one_time }
  else b

/-- stepHomeowner: the is_homeowner context flag (lines 1239-1246): rename
any expense matching whole-word /rent/i but not /mortgage/i to
"Mortgage Payment". -/
def stepHomeowner (p : Patch) (b : Budget) : Budget :=
  if truthyB p.is_homeowner then
    { b with
      expenses := b.expenses.map (fun i =>
        if testWordRent i.name && !strIncl (strLower i.name) "mortgage"
        then { i with name := "Mortgage Payment" } else i) }
  else b

/-- childNameMatch is the /child|daycare|kids/i test of the children flag. -/
def childNameMatch (n : String) : Bool :=
  strIncl (strLower n) "child" || strIncl (strLower n) "daycare" || strIncl (strLower n) "kids"

/-- stepChildren: the num_children context flag (lines 1249-1253): ensure a
childcare expense of children * 800 per month when none matches. -/
def stepChildren (p : Patch) (b : Budget) : Budget :=
  match p.num_children with
  | none => b
  | some n =>
    if 0 < n then
      if b.expenses.any (fun e => childNameMatch e.name) then b
      else { b with expenses := findOrAdd b.expenses "Childcare / Daycare" (n * 800) .monthly }
    else b

/-- annualPart is the annual_income branch of effectiveMonthlyIncome:
Math.round(annual_income / 12) when annual_income is truthy. -/
def annualPart (x : Option ℚ) : Option ℚ :=
  match x with
  | some a => if a = 0 then none else some ((jsRound (a / 12) : ℤ) : ℚ)
  | none => none

/-- effectiveMonthlyIncome, from line 1260: monthly_income, or else
annual_income converted to monthly by whole-dollar rounding. -/
def effectiveMonthlyIncome (p : Patch) : Option ℚ :=
  match p.monthly_income with
  | some v => if v = 0 then annualPart p.annual_income else some v
  | none => annualPart p.annual_income

/-- stepIncomeFields: the six named income upserts (lines 1263-1268). -/
def stepIncomeFields (p : Patch) (b : Budget) : Budget :=
  let arr := b.income
  let arr := upsertIf p.salary arr "Salary" .monthly
  let arr := upsertIf p.side_income arr "Freelance / Side Hustle" .monthly
  let arr := upsertIf p.rental_income arr "Rental Income" .monthly
  let arr := upsertIf p.social_security arr "Social Security" .monthly
  let arr := upsertIf p.pension_income arr "Pension" .monthly
  let arr := upsertIf p.investment_income arr "Investment Income" .monthly
  { b with income := arr }

/-- stepIncomeScale: the income aggregate rule (lines 1271-1282): when only a
total is supplied scale existing items by Math.round, or create a single
"Income" item when the sequence is empty. -/
def stepIncomeScale (p : Patch) (b : Budget) : Budget :=
  match effectiveMonthlyIncome p with
  | none => b
  | some eff =>
    if eff = 0 then b
    else if truthyQ p.salary || truthyQ p.side_income || truthyQ p.rental_income ||
        truthyQ p.social_security || truthyQ p.pension_income then b
    else
      let currentTotal := sumBy (fun i => i.monthlyValue) b.income
      if 0 < currentTotal then
        { b with income := b.income.map (scaleWithComputeValues (eff / currentTotal)) }
      else if b.income.length = 0 then
        { b with income := [mi "Income" eff .monthly] }
      else b

/-- stepExpenseFields: the thirteen named expense upserts (lines 1288-1300). -/
def stepExpenseFields (p : Patch) (b : Budget) : Budget :=
  let arr := b.expenses
  let arr := upsertIf p.rent arr "Rent" .monthly
  let arr := upsertIf p.mortgage_payment arr "Mortgage Payment" .monthly
  let arr := upsertIf p.utilities arr "Utilities" .monthly
  let arr := upsertIf p.groceries arr "Groceries" .monthly
  let arr := upsertIf p.car_payment arr "Car Payment" .monthly
  let arr := upsertIf p.car_insurance arr "Car Insurance" .monthly
  let arr := upsertIf p.health_insurance arr "Health Insurance" .monthly
  let arr := upsertIf p.phone_bill arr "Phone Bill" .monthly
  let arr := upsertIf p.internet arr "Internet" .monthly
  let arr := upsertIf p.childcare arr "Childcare / Daycare" .monthly
  let arr := upsertIf p.subscriptions arr "Subscriptions" .monthly
  let arr := upsertIf p.dining_out arr "Dining Out" .monthly
  let arr := upsertIf p.transportation arr "Gas / Transportation" .monthly
  { b with expenses := arr }

/-- stepExpenseScale: the expense aggregate rule (lines 1303-1312): scale
when a lump monthly_expenses is supplied with no rent, mortgage_payment or
groceries field; no fallback item is created. -/
def stepExpenseScale (p : Patch) (b : Budget) : Budget :=
  match p.monthly_expenses with
  | none => b
  | some v =>
    if v = 0 then b
    else if truthyQ p.rent || truthyQ p.mortgage_payment || truthyQ p.groceries then b
    else
      let currentTotal := sumBy (fun i => i.monthlyValue) b.expenses
      if 0 < currentTotal then
        { b with expenses := b.expenses.map (scaleWithComputeValues (v / currentTotal)) }
      else b

/-- stepAssetFields: the four named liquid-asset upserts (lines 1318-1321). -/
def stepAssetFields (p : Patch) (b : Budget) : Budget :=
  let arr := b.assets
  let arr := upsertIf p.checking_balance arr "Checking Account" .one_time
  let arr := upsertIf p.savings_balance arr "Savings Account" .one_time
  let arr := upsertIf p.emergency_fund arr "Emergency Fund" .one_time
  let arr := upsertIf p.investment_balance arr "Brokerage Account" .one_time
  { b with assets := arr }

/-- splitComma models String.split(",") on a character list: acc holds the
current entry reversed. -/
def splitComma (acc : List Char) : List Char → List (List Char)
  | [] => [acc.reverse]
  | c :: t => if c = ',' then acc.reverse :: splitComma [] t else splitComma (c :: acc) t

/-- trimChars models String.trim: strip leading and trailing whitespace. -/
def trimChars (l : List Char) : List Char :=
  ((l.dropWhile Char.isWhitespace).reverse.dropWhile Char.isWhitespace).reverse

/-- splitLower models crypto_tickers.split(",").map(trim, toLowerCase) with
empty entries dropped. -/
def splitLower (s : String) : List String :=
  ((splitComma [] s.data).map (fun t => String.mk (lowerChars (trimChars t)))).filter
    (fun t => ¬ t = "")

/-- splitUpper models stock_tickers.split(",").map(trim, toUpperCase) with
empty entries dropped. -/
def splitUpper (s : String) : List String :=
  ((splitComma [] s.data).map (fun t => String.mk (upperChars (trimChars t)))).filter
    (fun t => ¬ t = "")

/-- capFirst models ticker.charAt(0).toUpperCase() + ticker.slice(1). -/
def capFirst (s : String) : String :=
  match s.data with
  | [] => ""
  | c :: cs => String.mk (c.toUpper :: cs)

/-- addCryptoTicker appends a zero-amount crypto item for a ticker not
already present (matched by ticker identity). -/
def addCryptoTicker (arr : List BudgetItem) (t : String) : List BudgetItem :=
  if arr.any (fun a => a.ticker = some t) then arr
  else arr ++ [{ mia (capFirst t) 0 with assetType := some .crypto, ticker := some t }]

/-- cryptoAssetMatch is the a.assetType === "crypto" || /crypto/i.test(a.name)
test. -/
def cryptoAssetMatch (a : BudgetItem) : Bool :=
  a.assetType = some .crypto || strIncl (strLower a.name) "crypto"

/-- stepCrypto: the crypto branch (lines 1324-1338): either per-ticker items,
or the has_crypto / crypto_balance fallback. -/
def stepCrypto (p : Patch) (b : Budget) : Budget :=
  if truthyS p.crypto_tickers then
    { b with
      assets := (splitLower (p.crypto_tickers.getD "")).foldl addCryptoTicker b.assets }
  else if truthyB p.has_crypto || truthyQ p.crypto_balance then
    if ¬ b.assets.any cryptoAssetMatch then
      { b with
        assets := b.assets ++
          [{ mia "Crypto Portfolio" ((p.crypto_balance.getD 0)) with
             assetType := some .crypto, ticker := some "bitcoin" }] }
    else if truthyQ p.crypto_balance then
      { b with
        assets := b.assets.map (fun a =>
          if cryptoAssetMatch a
          then { a with amount := p.crypto_balance.getD 0, totalValue := p.crypto_balance.getD 0 }
          else a) }
    else b
  else b

/-- addStockTicker appends a zero-amount stock item for a ticker not already
present (matched by ticker identity and stock asset type). -/
def addStockTicker (arr : List BudgetItem) (t : String) : List BudgetItem :=
  if arr.any (fun a => a.ticker = some t && a.assetType = some .stock) then arr
  else arr ++ [{ mia t 0 with assetType := some .stock, ticker := some t }]

/-- stepStocks: the stock branch (lines 1341-1352). -/
def stepStocks (p : Patch) (b : Budget) : Budget :=
  if truthyS p.stock_tickers then
    { b with
      assets := (splitUpper (p.stock_tickers.getD "")).foldl addStockTicker b.assets }
  else if truthyB p.has_stocks then
    if b.assets.any (fun a =>
        a.assetType = some .stock || strIncl (strLower a.name) "stock" ||
          strIncl (strLower a.name) "brokerage") then b
    else { b with assets := b.assets ++ [{ mia "Stocks/Brokerage" 0 with assetType := some .stock }] }
  else b

/-- isPricedAsset is the i.assetType && i.assetType !== "manual" test that
excludes an item from liquid-asset scaling. -/
def isPricedAsset (i : BudgetItem) : Bool :=
  match i.assetType with
  | some t => ¬ t = .manual
  | none => false

/-- stepLiquidScale: the liquid-asset aggregate rule (lines 1355-1366):
scale manual items by the ratio of the supplied total to the manual items'
current total; priced (crypto/stock) items are left alone. -/
def stepLiquidScale (p : Patch) (b : Budget) : Budget :=
  match p.liquid_assets with
  | none => b
  | some v =>
    if v = 0 then b
    else if truthyQ p.checking_balance || truthyQ p.savings_balance ||
        truthyQ p.emergency_fund then b
    else
      let liquidItems := b.assets.filter (fun a => ¬ isPricedAsset a)
      let currentTotal := sumBy (fun i => i.totalValue) liquidItems
      if 0 < currentTotal then
        { b with
          assets := b.assets.map (fun i =>
            if isPricedAsset i then i else scaleAssetStyle (v / currentTotal) i) }
      else b

/-- stepNonLiquidFields: the four named non-liquid upserts (lines 1372-1375). -/
def stepNonLiquidFields (p : Patch) (b : Budget) : Budget :=
  let arr := b.nonLiquidAssets
  let arr := upsertIf p.home_value arr "Home Value" .one_time
  let arr := upsertIf p.car_value arr "Car Value" .one_time
  let arr := upsertIf p.jewelry_collectibles arr "Jewelry / Collectibles" .one_time
  let arr := upsertIf p.business_equity arr "Business Equity" .one_time
  { b with nonLiquidAssets := arr }

/-- stepNonLiquidScale: the non-liquid aggregate rule (lines 1377-1386). -/
def stepNonLiquidScale (p : Patch) (b : Budget) : Budget :=
  match p.nonliquid_assets with
  | none => b
  | some v =>
    if v = 0 then b
    else if truthyQ p.home_value || truthyQ p.car_value then b
    else
      let currentTotal := sumBy (fun i => i.totalValue) b.nonLiquidAssets
      if 0 < currentTotal then
        { b with nonLiquidAssets := b.nonLiquidAssets.map (scaleAssetStyle (v / currentTotal)) }
      else b

/-- stepDiscount: the nonliquid_discount override (line 1388), applied on
presence (not truthiness). -/
def stepDiscount (p : Patch) (b : Budget) : Budget :=
  match p.nonliquid_discount with
  | some d => { b with nonLiquidDiscount := d }
  | none => b

/-- stepRetirementFields: the six named retirement upserts (lines 1394-1399). -/
def stepRetirementFields (p : Patch) (b : Budget) : Budget :=
  let arr := b.retirement
  let arr := upsertIf p.balance_401k arr "401k" .one_time
  let arr := upsertIf p.roth_ira arr "Roth IRA" .one_time
  let arr := upsertIf p.traditional_ira arr "Traditional IRA" .one_time
  let arr := upsertIf p.pension_fund arr "Pension Fund" .one_time
  let arr := upsertIf p.balance_403b arr "403b" .one_time
  let arr := upsertIf p.sep_ira arr "SEP IRA" .one_time
  { b with retirement := arr }

/-- stepRetirementScale: the retirement aggregate rule (lines 1401-1412),
with a single fallback item on an empty sequence. -/
def stepRetirementScale (p : Patch) (b : Budget) : Budget :=
  match p.retirement_savings with
  | none => b
  | some v =>
    if v = 0 then b
    else if truthyQ p.balance_401k || truthyQ p.roth_ira || truthyQ p.traditional_ira then b
    else
      let currentTotal := sumBy (fun i => i.totalValue) b.retirement
      if 0 < currentTotal then
        { b with retirement := b.retirement.map (scaleAssetStyle (v / currentTotal)) }
      else if b.retirement.length = 0 then
        { b with retirement := [mia "Retirement Savings" v] }
      else b

/-- stepLiabilityFields: the six named liability upserts (lines 1418-1423). -/
def stepLiabilityFields (p : Patch) (b : Budget) : Budget :=
  let arr := b.liabilities
  let arr := upsertIf p.mortgage_balance arr "Mortgage" .one_time
  let arr := upsertIf p.student_loans arr "Student Loans" .one_time
  let arr := upsertIf p.car_loan arr "Car Loan" .one_time
  let arr := upsertIf p.credit_card_debt arr "Credit Card Debt" .one_time
  let arr := upsertIf p.personal_loan arr "Personal Loan" .one_time
  let arr := upsertIf p.medical_debt arr "Medical Bills" .one_time
  { b with liabilities := arr }

/-- stepLiabilityScale: the liability aggregate rule (lines 1425-1436),
scaling with computeValues or creating a single "Total Debt" fallback item
on an empty sequence. -/
def stepLiabilityScale (p : Patch) (b : Budget) : Budget :=
  match p.liabilities with
  | none => b
  | some v =>
    if v = 0 then b
    else if truthyQ p.mortgage_balance || truthyQ p.student_loans ||
        truthyQ p.car_loan || truthyQ p.credit_card_debt then b
    else
      let currentTotal := sumBy (fun i => i.totalValue) b.liabilities
      if 0 < currentTotal then
        { b with liabilities := b.liabilities.map (scaleWithComputeValues (v / currentTotal)) }
      else if b.liabilities.length = 0 then
        { b with liabilities := [mia "Total Debt" v] }
      else b

/-- preLiabilitySteps is the pipeline of hydrateFromInitialData up to (not
including) the liability blocks, in source order. -/
def preLiabilitySteps (p : Patch) (b : Budget) : Budget :=
  b
  |> stepName p
  |> stepUnemployed p
  |> stepHomeowner p
  |> stepChildren p
  |> stepIncomeFields p
  |> stepIncomeScale p
  |> stepExpenseFields p
  |> stepExpenseScale p
  |> stepAssetFields p
  |> stepCrypto p
  |> stepStocks p
  |> stepLiquidScale p
  |> stepNonLiquidFields p
  |> stepNonLiquidScale p
  |> stepDiscount p
  |> stepRetirementFields p
  |> stepRetirementScale p

/-- reconcile applies the body of hydrateFromInitialData (after base
selection) to a base budget, in source order. -/
def reconcile (base : Budget) (p : Patch) : Budget :=
  base
  |> preLiabilitySteps p
  |> stepLiabilityFields p
  |> stepLiabilityScale p

-- Budget presets (MyBudget.tsx lines 217-274) ---------------------------------

/-- PresetDef holds one entry of BUDGET_PRESETS (the budget part and key;
label, emoji and description strings are UI-only and omitted). -/
structure PresetDef where
  key : String
  name : String
  income : List BudgetItem
  expenses : List BudgetItem
  assets : List BudgetItem
  nonLiquidAssets : List BudgetItem
  retirement : List BudgetItem
  liabilities : List BudgetItem
  nonLiquidDiscount : ℚ
deriving Repr

/-- genZPreset, from MyBudget.tsx lines 218-231. -/
def genZPreset : PresetDef :=
  { key := "gen_z", name := "Gen Z Budget",
    income := [mi "Part-time / Full-time Job" 2400 .monthly,
      mi "Freelance / Side Hustle" 500 .monthly, mi "Tips / Gig Work" 200 .monthly],
    expenses := [mi "Rent (shared)" 950 .monthly, mi "Groceries" 350 .monthly,
      mi "Phone Plan" 80 .monthly, mi "Streaming (Netflix, Spotify)" 30 .monthly,
      mi "Dining Out" 200 .monthly, mi "Uber / Transit" 120 .monthly,
      mi "Gym Membership" 40 .monthly, mi "Subscriptions (apps)" 25 .monthly,
      mi "Clothing" 75 .monthly, mi "Entertainment" 100 .monthly],
    assets := [mia "Savings Account" 2500, mia "Venmo / Cash App Balance" 300,
      mia "Crypto" 500],
    nonLiquidAssets := [mia "Laptop" 1200, mia "Phone" 800],
    retirement := [mia "Roth IRA" 3000],
    liabilities := [mia "Student Loans" 28000, mia "Credit Card Balance" 2500,
      mi "Buy Now Pay Later" 50 .monthly],
    nonLiquidDiscount := 50 }

/-- millennialPreset, from MyBudget.tsx lines 232-245. -/
def millennialPreset : PresetDef :=
  { key := "millennial", name := "Millennial Budget",
    income := [mi "Salary" 4200 .monthly, mi "Bonus" 5000 .yearly,
      mi "Side Project / Freelance" 400 .monthly],
    expenses := [mi "Rent / Mortgage" 1500 .monthly, mi "Groceries" 450 .monthly,
      mi "Car Payment" 500 .monthly, mi "Car Insurance" 150 .monthly,
      mi "Utilities" 200 .monthly, mi "Phone Plan" 85 .monthly,
      mi "Internet" 70 .monthly, mi "Streaming Services" 45 .monthly,
      mi "Dining Out" 250 .monthly, mi "Gym" 50 .monthly,
      mi "Pet Expenses" 100 .monthly, mi "Travel Fund" 200 .monthly],
    assets := [mia "Checking Account" 4000, mia "Savings Account" 12000,
      mia "Brokerage Account" 15000, mia "Crypto Portfolio" 3000],
    nonLiquidAssets := [mia "Car" 18000, mia "Furniture & Electronics" 5000],
    retirement := [mia "401k" 35000, mia "Roth IRA" 12000],
    liabilities := [mia "Student Loans" 22000, mia "Credit Card Balance" 4500,
      mia "Car Loan" 15000],
    nonLiquidDiscount := 30 }

/-- familyPreset, from MyBudget.tsx lines 246-259. -/
def familyPreset : PresetDef :=
  { key := "family", name := "Family Budget",
    income := [mi "Salary (Primary)" 4000 .monthly, mi "Salary (Spouse)" 3200 .monthly,
      mi "Child Tax Credit" 250 .monthly],
    expenses := [mi "Mortgage" 2100 .monthly, mi "Property Tax" 4800 .yearly,
      mi "Homeowner\x27s Insurance" 1800 .yearly, mi "Groceries" 700 .monthly,
      mi "Utilities" 380 .monthly, mi "Childcare / Daycare" 1200 .monthly,
      mi "Kids Activities" 150 .monthly, mi "Car Payment" 550 .monthly,
      mi "Car Insurance" 200 .monthly, mi "Gas" 180 .monthly,
      mi "Phone Plans" 140 .monthly, mi "Internet" 75 .monthly,
      mi "Streaming" 50 .monthly, mi "Dining Out" 250 .monthly,
      mi "Clothing" 170 .monthly, mi "Medical / Copays" 100 .monthly,
      mi "School Supplies" 50 .monthly],
    assets := [mia "Checking Account" 6000, mia "Joint Savings" 25000,
      mia "529 College Fund" 18000, mia "Brokerage Account" 30000],
    nonLiquidAssets := [mia "Home Equity" 120000, mia "Car (Primary)" 22000,
      mia "Car (Spouse)" 15000],
    retirement := [mia "401k (Primary)" 65000, mia "401k (Spouse)" 40000,
      mia "Roth IRA" 15000],
    liabilities := [mia "Mortgage Balance" 280000, mia "Car Loan" 18000,
      mia "Credit Card" 6000, mia "Medical Bills" 2000],
    nonLiquidDiscount := 20 }

/-- retireePreset, from MyBudget.tsx lines 260-273. -/
def retireePreset : PresetDef :=
  { key := "retiree", name := "Retiree Budget",
    income := [mi "Social Security" 1900 .monthly, mi "Pension" 1500 .monthly,
      mi "Retirement Withdrawals" 1200 .monthly, mi "Rental Income" 800 .monthly],
    expenses := [mi "Mortgage / Rent" 1200 .monthly, mi "Utilities" 300 .monthly,
      mi "Groceries" 500 .monthly, mi "Medicare / Health Insurance" 340 .monthly,
      mi "Prescriptions" 150 .monthly, mi "Car Insurance" 120 .monthly,
      mi "Gas" 100 .monthly, mi "Phone" 60 .monthly,
      mi "Internet / Cable" 90 .monthly, mi "Dining Out" 200 .monthly,
      mi "Travel / Vacations" 300 .monthly, mi "Hobbies" 100 .monthly,
      mi "Gifts / Donations" 150 .monthly],
    assets := [mia "Checking Account" 8000, mia "Savings Account" 45000,
      mia "CDs / Bonds" 50000, mia "Brokerage Account" 80000],
    nonLiquidAssets := [mia "Home" 300000, mia "Car" 15000,
      mia "Jewelry / Collectibles" 10000],
    retirement := [mia "401k / IRA" 250000, mia "Pension Fund" 150000,
      mia "Annuity" 75000],
    liabilities := [mia "Mortgage Balance" 85000, mia "Medical Bills" 3000],
    nonLiquidDiscount := 20 }

/-- BUDGET_PRESETS, from MyBudget.tsx line 217. -/
def BUDGET_PRESETS : List PresetDef :=
  [genZPreset, millennialPreset, familyPreset, retireePreset]

/-- presetOrEmpty selects the starting base of hydrateFromInitialData
(lines 1211-1222): the named preset when present and found, else an empty
budget. -/
def presetOrEmpty (p : Patch) (now : ℕ) : Budget :=
  if truthyS p.preset then
    match BUDGET_PRESETS.find? (fun pr => pr.key == p.preset.getD "") with
    | some pr =>
      { id := newId, name := pr.name, income := pr.income, expenses := pr.expenses,
        assets := pr.assets, nonLiquidAssets := pr.nonLiquidAssets,
        retirement := pr.retirement, liabilities := pr.liabilities,
        nonLiquidDiscount := pr.nonLiquidDiscount, lastPriceRefresh := none,
        createdAt := now, updatedAt := now }
    | none => emptyBudget now
  else emptyBudget now

/-- patchHasData models the keys-to-hydrate check at lines 1180-1181: some
field other than ready/timestamp/input_source/summary/suggested_followups is
present. -/
def patchHasData (p : Patch) : Bool :=
  p.preset.isSome || p.budget_name.isSome || p.is_unemployed.isSome ||
  p.is_homeowner.isSome || p.num_children.isSome || p.monthly_income.isSome ||
  p.annual_income.isSome || p.salary.isSome || p.side_income.isSome ||
  p.rental_income.isSome || p.social_security.isSome || p.pension_income.isSome ||
  p.investment_income.isSome || p.rent.isSome || p.mortgage_payment.isSome ||
  p.utilities.isSome || p.groceries.isSome || p.car_payment.isSome ||
  p.car_insurance.isSome || p.health_insurance.isSome || p.phone_bill.isSome ||
  p.internet.isSome || p.childcare.isSome || p.subscriptions.isSome ||
  p.dining_out.isSome || p.transportation.isSome || p.monthly_expenses.isSome ||
  p.checking_balance.isSome || p.savings_balance.isSome || p.emergency_fund.isSome ||
  p.investment_balance.isSome || p.crypto_tickers.isSome || p.has_crypto.isSome ||
  p.crypto_balance.isSome || p.stock_tickers.isSome || p.has_stocks.isSome ||
  p.liquid_assets.isSome || p.home_value.isSome || p.car_value.isSome ||
  p.jewelry_collectibles.isSome || p.business_equity.isSome ||
  p.nonliquid_assets.isSome || p.nonliquid_discount.isSome ||
  p.balance_401k.isSome || p.roth_ira.isSome || p.traditional_ira.isSome ||
  p.pension_fund.isSome || p.balance_403b.isSome || p.sep_ira.isSome ||
  p.retirement_savings.isSome || p.liabilities.isSome || p.mortgage_balance.isSome ||
  p.student_loans.isSome || p.car_loan.isSome || p.credit_card_debt.isSome ||
  p.personal_loan.isSome || p.medical_debt.isSome

/-- hydrateFromInitialData, from MyBudget.tsx line 1177: null when nothing to
hydrate, else the reconciled preset-or-empty base. -/
def hydrateFromInitialData (p : Patch) (now : ℕ) : Option Budget :=
  if patchHasData p then some (reconcile (presetOrEmpty p now) p) else none

-- Projection lemmas: which pipeline steps leave the liabilities list alone ----

theorem liabilities_stepName (p : Patch) (b : Budget) :
    (stepName p b).liabilities = b.liabilities := by
  unfold stepName; split <;> rfl

theorem liabilities_stepUnemployed (p : Patch) (b : Budget) :
    (stepUnemployed p b).liabilities = b.liabilities := by
  unfold stepUnemployed; repeat' (first | rfl | split | dsimp only)

theorem liabilities_stepHomeowner (p : Patch) (b : Budget) :
    (stepHomeowner p b).liabilities = b.liabilities := by
  unfold stepHomeowner; split <;> rfl

theorem liabilities_stepChildren (p : Patch) (b : Budget) :
    (stepChildren p b).liabilities = b.liabilities := by
  unfold stepChildren; repeat' (first | rfl | split | dsimp only)

theorem liabilities_stepIncomeFields (p : Patch) (b : Budget) :
    (stepIncomeFields p b).liabilities = b.liabilities := by
  unfold stepIncomeFields; rfl

theorem liabilities_stepIncomeScale (p : Patch) (b : Budget) :
    (stepIncomeScale p b).liabilities = b.liabilities := by
  unfold stepIncomeScale; repeat' (first | rfl | split | dsimp only)

theorem liabilities_stepExpenseFields (p : Patch) (b : Budget) :
    (stepExpenseFields p b).liabilities = b.liabilities := by
  unfold stepExpenseFields; rfl

theorem liabilities_stepExpenseScale (p : Patch) (b : Budget) :
    (stepExpenseScale p b).liabilities = b.liabilities := by
  unfold stepExpenseScale; repeat' (first | rfl | split | dsimp only)

theorem liabilities_stepAssetFields (p : Patch) (b : Budget) :
    (stepAssetFields p b).liabilities = b.liabilities := by
  unfold stepAssetFields; rfl

theorem liabilities_stepCrypto (p : Patch) (b : Budget) :
    (stepCrypto p b).liabilities = b.liabilities := by
  unfold stepCrypto; repeat' (first | rfl | split | dsimp only)

theorem liabilities_stepStocks (p : Patch) (b : Budget) :
    (stepStocks p b).liabilities = b.liabilities := by
  unfold stepStocks; repeat' (first | rfl | split | dsimp only)

theorem liabilities_stepLiquidScale (p : Patch) (b : Budget) :
    (stepLiquidScale p b).liabilities = b.liabilities := by
  unfold stepLiquidScale; repeat' (first | rfl | split | dsimp only)

theorem liabilities_stepNonLiquidFields (p : Patch) (b : Budget) :
    (stepNonLiquidFields p b).liabilities = b.liabilities := by
  unfold stepNonLiquidFields; rfl

theorem liabilities_stepNonLiquidScale (p : Patch) (b : Budget) :
    (stepNonLiquidScale p b).liabilities = b.liabilities := by
  unfold stepNonLiquidScale; repeat' (first | rfl | split | dsimp only)

theorem liabilities_stepDiscount (p : Patch) (b : Budget) :
    (stepDiscount p b).liabilities = b.liabilities := by
  unfold stepDiscount; split <;> rfl

theorem liabilities_stepRetirementFields (p : Patch) (b : Budget) :
    (stepRetirementFields p b).liabilities = b.liabilities := by
  unfold stepRetirementFields; rfl

theorem liabilities_stepRetirementScale (p : Patch) (b : Budget) :
    (stepRetirementScale p b).liabilities = b.liabilities := by
  unfold stepRetirementScale; repeat' (first | rfl | split | dsimp only)

/-- liabilities_before: the pipeline up to the liability steps leaves the
liabilities list untouched. -/
theorem liabilities_before (p : Patch) (b : Budget) :
    (preLiabilitySteps p b).liabilities = b.liabilities := by
  simp only [preLiabilitySteps, Function.comp, liabilities_stepName, liabilities_stepUnemployed,
    liabilities_stepHomeowner, liabilities_stepChildren, liabilities_stepIncomeFields,
    liabilities_stepIncomeScale, liabilities_stepExpenseFields,
    liabilities_stepExpenseScale, liabilities_stepAssetFields, liabilities_stepCrypto,
    liabilities_stepStocks, liabilities_stepLiquidScale, liabilities_stepNonLiquidFields,
    liabilities_stepNonLiquidScale, liabilities_stepDiscount,
    liabilities_stepRetirementFields, liabilities_stepRetirementScale]

-- Behaviour of the liability blocks under explicit guards ---------------------

theorem stepLiabilityFields_id (p : Patch) (b : Budget)
    (h1 : p.mortgage_balance = none) (h2 : p.student_loans = none)
    (h3 : p.car_loan = none) (h4 : p.credit_card_debt = none)
    (h5 : p.personal_loan = none) (h6 : p.medical_debt = none) :
    stepLiabilityFields p b = b := by
  simp [stepLiabilityFields, h1, h2, h3, h4, h5, h6, upsertIf]

theorem stepLiabilityScale_scales (p : Patch) (b : Budget) (T : ℚ)
    (hl : p.liabilities = some T) (hT : ¬ T = 0)
    (h1 : p.mortgage_balance = none) (h2 : p.student_loans = none)
    (h3 : p.car_loan = none) (h4 : p.credit_card_debt = none)
    (hpos : 0 < sumBy (fun i => i.totalValue) b.liabilities) :
    (stepLiabilityScale p b).liabilities =
      b.liabilities.map
        (scaleWithComputeValues (T / sumBy (fun i => i.totalValue) b.liabilities)) := by
  unfold stepLiabilityScale
  rw [hl]
  simp [h1, h2, h3, h4, truthyQ, hT, hpos]

theorem stepLiabilityScale_zero (p : Patch) (b : Budget)
    (hl : p.liabilities = some 0) : stepLiabilityScale p b = b := by
  unfold stepLiabilityScale
  rw [hl]
  simp

theorem stepLiabilityScale_fallback (p : Patch) (b : Budget) (T : ℚ)
    (hl : p.liabilities = some T) (hT : ¬ T = 0)
    (h1 : p.mortgage_balance = none) (h2 : p.student_loans = none)
    (h3 : p.car_loan = none) (h4 : p.credit_card_debt = none)
    (hempty : b.liabilities = []) :
    (stepLiabilityScale p b).liabilities = [mia "Total Debt" T] := by
  unfold stepLiabilityScale
  rw [hl]
  simp [h1, h2, h3, h4, truthyQ, hT, hempty, sumBy]

theorem stepLiabilityScale_keep (p : Patch) (b : Budget) (T : ℚ)
    (hl : p.liabilities = some T) (hT : ¬ T = 0)
    (h1 : p.mortgage_balance = none) (h2 : p.student_loans = none)
    (h3 : p.car_loan = none) (h4 : p.credit_card_debt = none)
    (hsum : sumBy (fun i => i.totalValue) b.liabilities = 0)
    (hne : ¬ b.liabilities = []) :
    (stepLiabilityScale p b).liabilities = b.liabilities := by
  unfold stepLiabilityScale
  rw [hl]
  simp [h1, h2, h3, h4, truthyQ, hT, hsum, hne, List.length_eq_zero]

-- Section-projection lemmas: which steps leave each section alone ------------

theorem income_stepName (p : Patch) (b : Budget) :
    (stepName p b).income = b.income := by
  unfold stepName; repeat' (first | rfl | split | dsimp only)

theorem income_stepHomeowner (p : Patch) (b : Budget) :
    (stepHomeowner p b).income = b.income := by
  unfold stepHomeowner; repeat' (first | rfl | split | dsimp only)

theorem income_stepChildren (p : Patch) (b : Budget) :
    (stepChildren p b).income = b.income := by
  unfold stepChildren; repeat' (first | rfl | split | dsimp only)

theorem income_stepExpenseFields (p : Patch) (b : Budget) :
    (stepExpenseFields p b).income = b.income := by
  unfold stepExpenseFields; repeat' (first | rfl | split | dsimp only)

theorem income_stepExpenseScale (p : Patch) (b : Budget) :
    (stepExpenseScale p b).income = b.income := by
  unfold stepExpenseScale; repeat' (first | rfl | split | dsimp only)

theorem income_stepAssetFields (p : Patch) (b : Budget) :
    (stepAssetFields p b).income = b.income := by
  unfold stepAssetFields; repeat' (first | rfl | split | dsimp only)

theorem income_stepCrypto (p : Patch) (b : Budget) :
    (stepCrypto p b).income = b.income := by
  unfold stepCrypto; repeat' (first | rfl | split | dsimp only)

theorem income_stepStocks (p : Patch) (b : Budget) :
    (stepStocks p b).income = b.income := by
  unfold stepStocks; repeat' (first | rfl | split | dsimp only)

theorem income_stepLiquidScale (p : Patch) (b : Budget) :
    (stepLiquidScale p b).income = b.income := by
  unfold stepLiquidScale; repeat' (first | rfl | split | dsimp only)

theorem income_stepNonLiquidFields (p : Patch) (b : Budget) :
    (stepNonLiquidFields p b).income = b.income := by
  unfold stepNonLiquidFields; repeat' (first | rfl | split | dsimp only)

theorem income_stepNonLiquidScale (p : Patch) (b : Budget) :
    (stepNonLiquidScale p b).income = b.income := by
  unfold stepNonLiquidScale; repeat' (first | rfl | split | dsimp only)

theorem income_stepDiscount (p : Patch) (b : Budget) :
    (stepDiscount p b).income = b.income := by
  unfold stepDiscount; repeat' (first | rfl | split | dsimp only)

theorem income_stepRetirementFields (p : Patch) (b : Budget) :
    (stepRetirementFields p b).income = b.income := by
  unfold stepRetirementFields; repeat' (first | rfl | split | dsimp only)

theorem income_stepRetirementScale (p : Patch) (b : Budget) :
    (stepRetirementScale p b).income = b.income := by
  unfold stepRetirementScale; repeat' (first | rfl | split | dsimp only)

theorem income_stepLiabilityFields (p : Patch) (b : Budget) :
    (stepLiabilityFields p b).income = b.income := by
  unfold stepLiabilityFields; repeat' (first | rfl | split | dsimp only)

theorem income_stepLiabilityScale (p : Patch) (b : Budget) :
    (stepLiabilityScale p b).income = b.income := by
  unfold stepLiabilityScale; repeat' (first | rfl | split | dsimp only)

theorem expenses_stepName (p : Patch) (b : Budget) :
    (stepName p b).expenses = b.expenses := by
  unfold stepName; repeat' (first | rfl | split | dsimp only)

theorem expenses_stepUnemployed (p : Patch) (b : Budget) :
    (stepUnemployed p b).expenses = b.expenses := by
  unfold stepUnemployed; repeat' (first | rfl | split | dsimp only)

theorem expenses_stepIncomeFields (p : Patch) (b : Budget) :
    (stepIncomeFields p b).expenses = b.expenses := by
  unfold stepIncomeFields; repeat' (first | rfl | split | dsimp only)

theorem expenses_stepIncomeScale (p : Patch) (b : Budget) :
    (stepIncomeScale p b).expenses = b.expenses := by
  unfold stepIncomeScale; repeat' (first | rfl | split | dsimp only)

theorem expenses_stepAssetFields (p : Patch) (b : Budget) :
    (stepAssetFields p b).expenses = b.expenses := by
  unfold stepAssetFields; repeat' (first | rfl | split | dsimp only)

theorem expenses_stepCrypto (p : Patch) (b : Budget) :
    (stepCrypto p b).expenses = b.expenses := by
  unfold stepCrypto; repeat' (first | rfl | split | dsimp only)

theorem expenses_stepStocks (p : Patch) (b : Budget) :
    (stepStocks p b).expenses = b.expenses := by
  unfold stepStocks; repeat' (first | rfl | split | dsimp only)

theorem expenses_stepLiquidScale (p : Patch) (b : Budget) :
    (stepLiquidScale p b).expenses = b.expenses := by
  unfold stepLiquidScale; repeat' (first | rfl | split | dsimp only)

theorem expenses_stepNonLiquidFields (p : Patch) (b : Budget) :
    (stepNonLiquidFields p b).expenses = b.expenses := by
  unfold stepNonLiquidFields; repeat' (first | rfl | split | dsimp only)

theorem expenses_stepNonLiquidScale (p : Patch) (b : Budget) :
    (stepNonLiquidScale p b).expenses = b.expenses := by
  unfold stepNonLiquidScale; repeat' (first | rfl | split | dsimp only)

theorem expenses_stepDiscount (p : Patch) (b : Budget) :
    (stepDiscount p b).expenses = b.expenses := by
  unfold stepDiscount; repeat' (first | rfl | split | dsimp only)

theorem expenses_stepRetirementFields (p : Patch) (b : Budget) :
    (stepRetirementFields p b).expenses = b.expenses := by
  unfold stepRetirementFields; repeat' (first | rfl | split | dsimp only)

theorem expenses_stepRetirementScale (p : Patch) (b : Budget) :
    (stepRetirementScale p b).expenses = b.expenses := by
  unfold stepRetirementScale; repeat' (first | rfl | split | dsimp only)

theorem expenses_stepLiabilityFields (p : Patch) (b : Budget) :
    (stepLiabilityFields p b).expenses = b.expenses := by
  unfold stepLiabilityFields; repeat' (first | rfl | split | dsimp only)

theorem expenses_stepLiabilityScale (p : Patch) (b : Budget) :
    (stepLiabilityScale p b).expenses = b.expenses := by
  unfold stepLiabilityScale; repeat' (first | rfl | split | dsimp only)

theorem assets_stepName (p : Patch) (b : Budget) :
    (stepName p b).assets = b.assets := by
  unfold stepName; repeat' (first | rfl | split | dsimp only)

theorem assets_stepHomeowner (p : Patch) (b : Budget) :
    (stepHomeowner p b).assets = b.assets := by
  unfold stepHomeowner; repeat' (first | rfl | split | dsimp only)

theorem assets_stepChildren (p : Patch) (b : Budget) :
    (stepChildren p b).assets = b.assets := by
  unfold stepChildren; repeat' (first | rfl | split | dsimp only)

theorem assets_stepIncomeFields (p : Patch) (b : Budget) :
    (stepIncomeFields p b).assets = b.assets := by
  unfold stepIncomeFields; repeat' (first | rfl | split | dsimp only)

theorem assets_stepIncomeScale (p : Patch) (b : Budget) :
    (stepIncomeScale p b).assets = b.assets := by
  unfold stepIncomeScale; repeat' (first | rfl | split | dsimp only)

theorem assets_stepExpenseFields (p : Patch) (b : Budget) :
    (stepExpenseFields p b).assets = b.assets := by
  unfold stepExpenseFields; repeat' (first | rfl | split | dsimp only)

theorem assets_stepExpenseScale (p : Patch) (b : Budget) :
    (stepExpenseScale p b).assets = b.assets := by
  unfold stepExpenseScale; repeat' (first | rfl | split | dsimp only)

theorem assets_stepNonLiquidFields (p : Patch) (b : Budget) :
    (stepNonLiquidFields p b).assets = b.assets := by
  unfold stepNonLiquidFields; repeat' (first | rfl | split | dsimp only)

theorem assets_stepNonLiquidScale (p : Patch) (b : Budget) :
    (stepNonLiquidScale p b).assets = b.assets := by
  unfold stepNonLiquidScale; repeat' (first | rfl | split | dsimp only)

theorem assets_stepDiscount (p : Patch) (b : Budget) :
    (stepDiscount p b).assets = b.assets := by
  unfold stepDiscount; repeat' (first | rfl | split | dsimp only)

theorem assets_stepRetirementFields (p : Patch) (b : Budget) :
    (stepRetirementFields p b).assets = b.assets := by
  unfold stepRetirementFields; repeat' (first | rfl | split | dsimp only)

theorem assets_stepRetirementScale (p : Patch) (b : Budget) :
    (stepRetirementScale p b).assets = b.assets := by
  unfold stepRetirementScale; repeat' (first | rfl | split | dsimp only)

theorem assets_stepLiabilityFields (p : Patch) (b : Budget) :
    (stepLiabilityFields p b).assets = b.assets := by
  unfold stepLiabilityFields; repeat' (first | rfl | split | dsimp only)

theorem assets_stepLiabilityScale (p : Patch) (b : Budget) :
    (stepLiabilityScale p b).assets = b.assets := by
  unfold stepLiabilityScale; repeat' (first | rfl | split | dsimp only)

theorem nonLiquid_stepName (p : Patch) (b : Budget) :
    (stepName p b).nonLiquidAssets = b.nonLiquidAssets := by
  unfold stepName; repeat' (first | rfl | split | dsimp only)

theorem nonLiquid_stepUnemployed (p : Patch) (b : Budget) :
    (stepUnemployed p b).nonLiquidAssets = b.nonLiquidAssets := by
  unfold stepUnemployed; repeat' (first | rfl | split | dsimp only)

theorem nonLiquid_stepHomeowner (p : Patch) (b : Budget) :
    (stepHomeowner p b).nonLiquidAssets = b.nonLiquidAssets := by
  unfold stepHomeowner; repeat' (first | rfl | split | dsimp only)

theorem nonLiquid_stepChildren (p : Patch) (b : Budget) :
    (stepChildren p b).nonLiquidAssets = b.nonLiquidAssets := by
  unfold stepChildren; repeat' (first | rfl | split | dsimp only)

theorem nonLiquid_stepIncomeFields (p : Patch) (b : Budget) :
    (stepIncomeFields p b).nonLiquidAssets = b.nonLiquidAssets := by
  unfold stepIncomeFields; repeat' (first | rfl | split | dsimp only)

theorem nonLiquid_stepIncomeScale (p : Patch) (b : Budget) :
    (stepIncomeScale p b).nonLiquidAssets = b.nonLiquidAssets := by
  unfold stepIncomeScale; repeat' (first | rfl | split | dsimp only)

theorem nonLiquid_stepExpenseFields (p : Patch) (b : Budget) :
    (stepExpenseFields p b).nonLiquidAssets = b.nonLiquidAssets := by
  unfold stepExpenseFields; repeat' (first | rfl | split | dsimp only)

theorem nonLiquid_stepExpenseScale (p : Patch) (b : Budget) :
    (stepExpenseScale p b).nonLiquidAssets = b.nonLiquidAssets := by
  unfold stepExpenseScale; repeat' (first | rfl | split | dsimp only)

theorem nonLiquid_stepAssetFields (p : Patch) (b : Budget) :
    (stepAssetFields p b).nonLiquidAssets = b.nonLiquidAssets := by
  unfold stepAssetFields; repeat' (first | rfl | split | dsimp only)

theorem nonLiquid_stepCrypto (p : Patch) (b : Budget) :
    (stepCrypto p b).nonLiquidAssets = b.nonLiquidAssets := by
  unfold stepCrypto; repeat' (first | rfl | split | dsimp only)

theorem nonLiquid_stepStocks (p : Patch) (b : Budget) :
    (stepStocks p b).nonLiquidAssets = b.nonLiquidAssets := by
  unfold stepStocks; repeat' (first | rfl | split | dsimp only)

theorem nonLiquid_stepLiquidScale (p : Patch) (b : Budget) :
    (stepLiquidScale p b).nonLiquidAssets = b.nonLiquidAssets := by
  unfold stepLiquidScale; repeat' (first | rfl | split | dsimp only)

theorem nonLiquid_stepDiscount (p : Patch) (b : Budget) :
    (stepDiscount p b).nonLiquidAssets = b.nonLiquidAssets := by
  unfold stepDiscount; repeat' (first | rfl | split | dsimp only)

theorem nonLiquid_stepRetirementFields (p : Patch) (b : Budget) :
    (stepRetirementFields p b).nonLiquidAssets = b.nonLiquidAssets := by
  unfold stepRetirementFields; repeat' (first | rfl | split | dsimp only)

theorem nonLiquid_stepRetirementScale (p : Patch) (b : Budget) :
    (stepRetirementScale p b).nonLiquidAssets = b.nonLiquidAssets := by
  unfold stepRetirementScale; repeat' (first | rfl | split | dsimp only)

theorem nonLiquid_stepLiabilityFields (p : Patch) (b : Budget) :
    (stepLiabilityFields p b).nonLiquidAssets = b.nonLiquidAssets := by
  unfold stepLiabilityFields; repeat' (first | rfl | split | dsimp only)

theorem nonLiquid_stepLiabilityScale (p : Patch) (b : Budget) :
    (stepLiabilityScale p b).nonLiquidAssets = b.nonLiquidAssets := by
  unfold stepLiabilityScale; repeat' (first | rfl | split | dsimp only)

theorem retirement_stepName (p : Patch) (b : Budget) :
    (stepName p b).retirement = b.retirement := by
  unfold stepName; repeat' (first | rfl | split | dsimp only)

theorem retirement_stepUnemployed (p : Patch) (b : Budget) :
    (stepUnemployed p b).retirement = b.retirement := by
  unfold stepUnemployed; repeat' (first | rfl | split | dsimp only)

theorem retirement_stepHomeowner (p : Patch) (b : Budget) :
    (stepHomeowner p b).retirement = b.retirement := by
  unfold stepHomeowner; repeat' (first | rfl | split | dsimp only)

theorem retirement_stepChildren (p : Patch) (b : Budget) :
    (stepChildren p b).retirement = b.retirement := by
  unfold stepChildren; repeat' (first | rfl | split | dsimp only)

theorem retirement_stepIncomeFields (p : Patch) (b : Budget) :
    (stepIncomeFields p b).retirement = b.retirement := by
  unfold stepIncomeFields; repeat' (first | rfl | split | dsimp only)

theorem retirement_stepIncomeScale (p : Patch) (b : Budget) :
    (stepIncomeScale p b).retirement = b.retirement := by
  unfold stepIncomeScale; repeat' (first | rfl | split | dsimp only)

theorem retirement_stepExpenseFields (p : Patch) (b : Budget) :
    (stepExpenseFields p b).retirement = b.retirement := by
  unfold stepExpenseFields; repeat' (first | rfl | split | dsimp only)

theorem retirement_stepExpenseScale (p : Patch) (b : Budget) :
    (stepExpenseScale p b).retirement = b.retirement := by
  unfold stepExpenseScale; repeat' (first | rfl | split | dsimp only)

theorem retirement_stepAssetFields (p : Patch) (b : Budget) :
    (stepAssetFields p b).retirement = b.retirement := by
  unfold stepAssetFields; repeat' (first | rfl | split | dsimp only)

theorem retirement_stepCrypto (p : Patch) (b : Budget) :
    (stepCrypto p b).retirement = b.retirement := by
  unfold stepCrypto; repeat' (first | rfl | split | dsimp only)

theorem retirement_stepStocks (p : Patch) (b : Budget) :
    (stepStocks p b).retirement = b.retirement := by
  unfold stepStocks; repeat' (first | rfl | split | dsimp only)

theorem retirement_stepLiquidScale (p : Patch) (b : Budget) :
    (stepLiquidScale p b).retirement = b.retirement := by
  unfold stepLiquidScale; repeat' (first | rfl | split | dsimp only)

theorem retirement_stepNonLiquidFields (p : Patch) (b : Budget) :
    (stepNonLiquidFields p b).retirement = b.retirement := by
  unfold stepNonLiquidFields; repeat' (first | rfl | split | dsimp only)

theorem retirement_stepNonLiquidScale (p : Patch) (b : Budget) :
    (stepNonLiquidScale p b).retirement = b.retirement := by
  unfold stepNonLiquidScale; repeat' (first | rfl | split | dsimp only)

theorem retirement_stepDiscount (p : Patch) (b : Budget) :
    (stepDiscount p b).retirement = b.retirement := by
  unfold stepDiscount; repeat' (first | rfl | split | dsimp only)

theorem retirement_stepLiabilityFields (p : Patch) (b : Budget) :
    (stepLiabilityFields p b).retirement = b.retirement := by
  unfold stepLiabilityFields; repeat' (first | rfl | split | dsimp only)

theorem retirement_stepLiabilityScale (p : Patch) (b : Budget) :
    (stepLiabilityScale p b).retirement = b.retirement := by
  unfold stepLiabilityScale; repeat' (first | rfl | split | dsimp only)

-- Whole-step identity lemmas under absent patch fields ------------------------

theorem stepUnemployed_id (p : Patch) (h : p.is_unemployed = none) (b : Budget) :
    stepUnemployed p b = b := by
  unfold stepUnemployed
  simp [truthyB, h]

theorem stepHomeowner_id (p : Patch) (h : p.is_homeowner = none) (b : Budget) :
    stepHomeowner p b = b := by
  unfold stepHomeowner
  simp [truthyB, h]

theorem stepChildren_id (p : Patch) (h : p.num_children = none) (b : Budget) :
    stepChildren p b = b := by
  unfold stepChildren
  rw [h]

theorem stepIncomeFields_id (p : Patch) (h1 : p.salary = none)
    (h2 : p.side_income = none) (h3 : p.rental_income = none)
    (h4 : p.social_security = none) (h5 : p.pension_income = none)
    (h6 : p.investment_income = none) (b : Budget) : stepIncomeFields p b = b := by
  simp [stepIncomeFields, h1, h2, h3, h4, h5, h6, upsertIf]

theorem stepExpenseFields_id (p : Patch) (h1 : p.rent = none)
    (h2 : p.mortgage_payment = none) (h3 : p.utilities = none)
    (h4 : p.groceries = none) (h5 : p.car_payment = none)
    (h6 : p.car_insurance = none) (h7 : p.health_insurance = none)
    (h8 : p.phone_bill = none) (h9 : p.internet = none) (h10 : p.childcare = none)
    (h11 : p.subscriptions = none) (h12 : p.dining_out = none)
    (h13 : p.transportation = none) (b : Budget) : stepExpenseFields p b = b := by
  simp [stepExpenseFields, h1, h2, h3, h4, h5, h6, h7, h8, h9, h10, h11, h12, h13,
    upsertIf]

theorem stepAssetFields_id (p : Patch) (h1 : p.checking_balance = none)
    (h2 : p.savings_balance = none) (h3 : p.emergency_fund = none)
    (h4 : p.investment_balance = none) (b : Budget) : stepAssetFields p b = b := by
  simp [stepAssetFields, h1, h2, h3, h4, upsertIf]

theorem stepCrypto_id (p : Patch) (h1 : p.crypto_tickers = none)
    (h2 : p.has_crypto = none) (h3 : p.crypto_balance = none) (b : Budget) :
    stepCrypto p b = b := by
  unfold stepCrypto
  simp [truthyS, truthyB, truthyQ, h1, h2, h3]

theorem stepStocks_id (p : Patch) (h1 : p.stock_tickers = none)
    (h2 : p.has_stocks = none) (b : Budget) : stepStocks p b = b := by
  unfold stepStocks
  simp [truthyS, truthyB, h1, h2]

theorem stepNonLiquidFields_id (p : Patch) (h1 : p.home_value = none)
    (h2 : p.car_value = none) (h3 : p.jewelry_collectibles = none)
    (h4 : p.business_equity = none) (b : Budget) : stepNonLiquidFields p b = b := by
  simp [stepNonLiquidFields, h1, h2, h3, h4, upsertIf]

theorem stepRetirementFields_id (p : Patch) (h1 : p.balance_401k = none)
    (h2 : p.roth_ira = none) (h3 : p.traditional_ira = none)
    (h4 : p.pension_fund = none) (h5 : p.balance_403b = none)
    (h6 : p.sep_ira = none) (b : Budget) : stepRetirementFields p b = b := by
  simp [stepRetirementFields, h1, h2, h3, h4, h5, h6, upsertIf]

-- Behaviour of the other aggregate-scaling blocks under explicit guards -------

theorem effectiveMonthlyIncome_some (p : Patch) (T : ℚ)
    (hmi : p.monthly_income = some T) (hT : ¬ T = 0) :
    effectiveMonthlyIncome p = some T := by
  unfold effectiveMonthlyIncome
  rw [hmi]
  simp [hT]

theorem stepIncomeScale_scales (p : Patch) (b : Budget) (T : ℚ)
    (hmi : p.monthly_income = some T) (hT : ¬ T = 0)
    (h1 : p.salary = none) (h2 : p.side_income = none) (h3 : p.rental_income = none)
    (h4 : p.social_security = none) (h5 : p.pension_income = none)
    (hpos : 0 < sumBy (fun i => i.monthlyValue) b.income) :
    (stepIncomeScale p b).income =
      b.income.map
        (scaleWithComputeValues (T / sumBy (fun i => i.monthlyValue) b.income)) := by
  unfold stepIncomeScale
  rw [effectiveMonthlyIncome_some p T hmi hT]
  simp [h1, h2, h3, h4, h5, truthyQ, hT, hpos]

theorem stepIncomeScale_zero (p : Patch) (b : Budget)
    (hmi : p.monthly_income = some 0) (han : p.annual_income = none) :
    stepIncomeScale p b = b := by
  unfold stepIncomeScale
  have he : effectiveMonthlyIncome p = none := by
    unfold effectiveMonthlyIncome annualPart
    rw [hmi, han]
    simp
  rw [he]

theorem stepIncomeScale_keep (p : Patch) (b : Budget) (T : ℚ)
    (hmi : p.monthly_income = some T) (hT : ¬ T = 0)
    (h1 : p.salary = none) (h2 : p.side_income = none) (h3 : p.rental_income = none)
    (h4 : p.social_security = none) (h5 : p.pension_income = none)
    (hsum : sumBy (fun i => i.monthlyValue) b.income = 0)
    (hne : ¬ b.income = []) : (stepIncomeScale p b).income = b.income := by
  unfold stepIncomeScale
  rw [effectiveMonthlyIncome_some p T hmi hT]
  simp [h1, h2, h3, h4, h5, truthyQ, hT, hsum, List.length_eq_zero, hne]

theorem stepIncomeScale_fallback (p : Patch) (b : Budget) (T : ℚ)
    (hmi : p.monthly_income = some T) (hT : ¬ T = 0)
    (h1 : p.salary = none) (h2 : p.side_income = none) (h3 : p.rental_income = none)
    (h4 : p.social_security = none) (h5 : p.pension_income = none)
    (hempty : b.income = []) :
    (stepIncomeScale p b).income = [mi "Income" T .monthly] := by
  unfold stepIncomeScale
  rw [effectiveMonthlyIncome_some p T hmi hT]
  simp [h1, h2, h3, h4, h5, truthyQ, hT, hempty, sumBy]

theorem stepExpenseScale_scales (p : Patch) (b : Budget) (T : ℚ)
    (hm : p.monthly_expenses = some T) (hT : ¬ T = 0)
    (h1 : p.rent = none) (h2 : p.mortgage_payment = none) (h3 : p.groceries = none)
    (hpos : 0 < sumBy (fun i => i.monthlyValue) b.expenses) :
    (stepExpenseScale p b).expenses =
      b.expenses.map
        (scaleWithComputeValues (T / sumBy (fun i => i.monthlyValue) b.expenses)) := by
  unfold stepExpenseScale
  rw [hm]
  simp [h1, h2, h3, truthyQ, hT, hpos]

theorem stepExpenseScale_zero (p : Patch) (b : Budget)
    (hm : p.monthly_expenses = some 0) : stepExpenseScale p b = b := by
  unfold stepExpenseScale
  rw [hm]
  simp

theorem stepExpenseScale_keep (p : Patch) (b : Budget) (T : ℚ)
    (hm : p.monthly_expenses = some T) (hT : ¬ T = 0)
    (h1 : p.rent = none) (h2 : p.mortgage_payment = none) (h3 : p.groceries = none)
    (hsum : sumBy (fun i => i.monthlyValue) b.expenses = 0) :
    (stepExpenseScale p b).expenses = b.expenses := by
  unfold stepExpenseScale
  rw [hm]
  simp [h1, h2, h3, truthyQ, hT, hsum]

theorem stepLiquidScale_scales (p : Patch) (b : Budget) (T : ℚ)
    (hla : p.liquid_assets = some T) (hT : ¬ T = 0)
    (h1 : p.checking_balance = none) (h2 : p.savings_balance = none)
    (h3 : p.emergency_fund = none)
    (hpos : 0 < sumBy (fun i => i.totalValue)
      (b.assets.filter (fun a => !isPricedAsset a))) :
    (stepLiquidScale p b).assets =
      b.assets.map (fun i =>
        if isPricedAsset i then i
        else scaleAssetStyle (T / sumBy (fun i => i.totalValue)
          (b.assets.filter (fun a => !isPricedAsset a))) i) := by
  unfold stepLiquidScale
  rw [hla]
  simp [h1, h2, h3, truthyQ, hT, hpos]

theorem stepLiquidScale_zero (p : Patch) (b : Budget)
    (hla : p.liquid_assets = some 0) : stepLiquidScale p b = b := by
  unfold stepLiquidScale
  rw [hla]
  simp

theorem stepLiquidScale_keep (p : Patch) (b : Budget) (T : ℚ)
    (hla : p.liquid_assets = some T) (hT : ¬ T = 0)
    (h1 : p.checking_balance = none) (h2 : p.savings_balance = none)
    (h3 : p.emergency_fund = none)
    (hsum : sumBy (fun i => i.totalValue)
      (b.assets.filter (fun a => !isPricedAsset a)) = 0) :
    (stepLiquidScale p b).assets = b.assets := by
  unfold stepLiquidScale
  rw [hla]
  simp [h1, h2, h3, truthyQ, hT, hsum]

theorem stepNonLiquidScale_scales (p : Patch) (b : Budget) (T : ℚ)
    (hna : p.nonliquid_assets = some T) (hT : ¬ T = 0)
    (h1 : p.home_value = none) (h2 : p.car_value = none)
    (hpos : 0 < sumBy (fun i => i.totalValue) b.nonLiquidAssets) :
    (stepNonLiquidScale p b).nonLiquidAssets =
      b.nonLiquidAssets.map
        (scaleAssetStyle (T / sumBy (fun i => i.totalValue) b.nonLiquidAssets)) := by
  unfold stepNonLiquidScale
  rw [hna]
  simp [h1, h2, truthyQ, hT, hpos]

theorem stepNonLiquidScale_zero (p : Patch) (b : Budget)
    (hna : p.nonliquid_assets = some 0) : stepNonLiquidScale p b = b := by
  unfold stepNonLiquidScale
  rw [hna]
  simp

theorem stepNonLiquidScale_keep (p : Patch) (b : Budget) (T : ℚ)
    (hna : p.nonliquid_assets = some T) (hT : ¬ T = 0)
    (h1 : p.home_value = none) (h2 : p.car_value = none)
    (hsum : sumBy (fun i => i.totalValue) b.nonLiquidAssets = 0) :
    (stepNonLiquidScale p b).nonLiquidAssets = b.nonLiquidAssets := by
  unfold stepNonLiquidScale
  rw [hna]
  simp [h1, h2, truthyQ, hT, hsum]

theorem stepRetirementScale_scales (p : Patch) (b : Budget) (T : ℚ)
    (hrs : p.retirement_savings = some T) (hT : ¬ T = 0)
    (h1 : p.balance_401k = none) (h2 : p.roth_ira = none)
    (h3 : p.traditional_ira = none)
    (hpos : 0 < sumBy (fun i => i.totalValue) b.retirement) :
    (stepRetirementScale p b).retirement =
      b.retirement.map
        (scaleAssetStyle (T / sumBy (fun i => i.totalValue) b.retirement)) := by
  unfold stepRetirementScale
  rw [hrs]
  simp [h1, h2, h3, truthyQ, hT, hpos]

theorem stepRetirementScale_zero (p : Patch) (b : Budget)
    (hrs : p.retirement_savings = some 0) : stepRetirementScale p b = b := by
  unfold stepRetirementScale
  rw [hrs]
  simp

theorem stepRetirementScale_keep (p : Patch) (b : Budget) (T : ℚ)
    (hrs : p.retirement_savings = some T) (hT : ¬ T = 0)
    (h1 : p.balance_401k = none) (h2 : p.roth_ira = none)
    (h3 : p.traditional_ira = none)
    (hsum : sumBy (fun i => i.totalValue) b.retirement = 0)
    (hne : ¬ b.retirement = []) :
    (stepRetirementScale p b).retirement = b.retirement := by
  unfold stepRetirementScale
  rw [hrs]
  simp [h1, h2, h3, truthyQ, hT, hsum, List.length_eq_zero, hne]

theorem stepRetirementScale_fallback (p : Patch) (b : Budget) (T : ℚ)
    (hrs : p.retirement_savings = some T) (hT : ¬ T = 0)
    (h1 : p.balance_401k = none) (h2 : p.roth_ira = none)
    (h3 : p.traditional_ira = none)
    (hempty : b.retirement = []) :
    (stepRetirementScale p b).retirement = [mia "Retirement Savings" T] := by
  unfold stepRetirementScale
  rw [hrs]
  simp [h1, h2, h3, truthyQ, hT, hempty, sumBy]

-- Claim C6 -------------------------------------------------------------------

/-- cScaleBase: a base budget with two OneTime liabilities of totals 100 and
300 (the concrete instance of the claim). -/
def cScaleBase : Budget :=
  { emptyBudget 0 with liabilities := [mia "Debt A" 100, mia "Debt B" 300] }

/-- cScalePatch: a patch supplying only the aggregate liabilities = 800. -/
def cScalePatch : Patch := { liabilities := some 800 }

/-- cRoundBase: a base budget with liability totals 100 and 301, on which
rounding breaks exact proportionality. -/
def cRoundBase : Budget :=
  { emptyBudget 0 with liabilities := [mia "Debt A" 100, mia "Debt B" 301] }

/-- cRoundPatch: a patch supplying only the aggregate liabilities = 803. -/
def cRoundPatch : Patch := { liabilities := some 803 }

/-- C6 (counterexample): the claim says every amount is scaled by exactly
ratio = suppliedTotal / currentTotal.  With totals [100, 301] and aggregate
803 the code rounds each scaled amount to whole dollars (Math.round), giving
totals [200, 603]; exact scaling would give 100 * 803/401 = 200.249...,
which 200 is not.  So amounts are not exactly amount * ratio and relative
proportions are not exactly preserved. -/
theorem liability_scaling_rounds_cex :
    (reconcile cRoundBase cRoundPatch).liabilities.map (fun i => i.totalValue) =
        [200, 603] ∧
      ¬ (200 : ℚ) = 100 * ((803 : ℚ) / 401) := by
  have hpre := liabilities_before cRoundPatch cRoundBase
  have hsum : sumBy (fun i => i.totalValue) cRoundBase.liabilities = 401 := by
    norm_num [sumBy, mia, cRoundBase]
  have hpos : 0 < sumBy (fun i => i.totalValue)
      (preLiabilitySteps cRoundPatch cRoundBase).liabilities := by
    rw [hpre, hsum]; norm_num
  have hmain : (reconcile cRoundBase cRoundPatch).liabilities =
      cRoundBase.liabilities.map
        (scaleWithComputeValues ((803 : ℚ) /
          sumBy (fun i => i.totalValue) (preLiabilitySteps cRoundPatch cRoundBase).liabilities)) := by
    show (stepLiabilityScale cRoundPatch
        (stepLiabilityFields cRoundPatch (preLiabilitySteps cRoundPatch cRoundBase))).liabilities = _
    rw [stepLiabilityFields_id _ _ rfl rfl rfl rfl rfl rfl,
      stepLiabilityScale_scales _ _ 803 rfl (by norm_num) rfl rfl rfl rfl hpos, hpre]
  constructor
  · rw [hmain, hpre, hsum]
    norm_num [cRoundBase, mia, scaleWithComputeValues, computeValues, jsRound]
  · norm_num

/-- C6 (amended): in every reconciliation group where an aggregate total T is
supplied with no named fields of that group (and no context flag touching the
section), and the base items of that group have positive current total, every
existing item's amount becomes Math.round(amount * T/currentTotal): the scale
factor is the claimed ratio but the result is rounded to whole dollars, so
relative proportions are preserved only up to rounding; each item's id and
frequency are preserved and derived fields recomputed (via computeValues for
income/expenses/liabilities, as totalValue = amount and monthlyValue = 0 for
the asset-style groups, whose items are OneTime); income and expenses scale
against the monthlyValue total, liquid assets scale only the manual items
against the manual items' total, and the other groups scale against the
totalValue total.  In the concrete instance with liability totals [100, 300]
and aggregate 800 the ratio 2 is exact and post-scaling totals are exactly
[200, 600]. -/
theorem aggregate_proportional_scaling (base : Budget) (p : Patch) (T : ℚ)
    (hl : p.liabilities = some T) (hT : ¬ T = 0)
    (h1 : p.mortgage_balance = none) (h2 : p.student_loans = none)
    (h3 : p.car_loan = none) (h4 : p.credit_card_debt = none)
    (h5 : p.personal_loan = none) (h6 : p.medical_debt = none)
    (hpos : 0 < sumBy (fun i => i.totalValue) base.liabilities) :
    (reconcile base p).liabilities =
        base.liabilities.map
          (scaleWithComputeValues (T / sumBy (fun i => i.totalValue) base.liabilities)) ∧
      (reconcile base p).liabilities.map (fun i => i.frequency) =
        base.liabilities.map (fun i => i.frequency) ∧
      (reconcile base p).liabilities.map (fun i => i.id) =
        base.liabilities.map (fun i => i.id) ∧
      (reconcile cScaleBase cScalePatch).liabilities.map (fun i => i.totalValue) =
        [200, 600] ∧
      (∀ (b2 : Budget) (q : Patch) (T2 : ℚ),
        q.monthly_income = some T2 → ¬ T2 = 0 →
        q.salary = none → q.side_income = none → q.rental_income = none →
        q.social_security = none → q.pension_income = none → q.investment_income = none →
        q.is_unemployed = none →
        0 < sumBy (fun i => i.monthlyValue) b2.income →
        (reconcile b2 q).income =
          b2.income.map
            (scaleWithComputeValues (T2 / sumBy (fun i => i.monthlyValue) b2.income))) ∧
      (∀ (b2 : Budget) (q : Patch) (T2 : ℚ),
        q.monthly_expenses = some T2 → ¬ T2 = 0 →
        q.rent = none → q.mortgage_payment = none → q.utilities = none →
        q.groceries = none → q.car_payment = none → q.car_insurance = none →
        q.health_insurance = none → q.phone_bill = none → q.internet = none →
        q.childcare = none → q.subscriptions = none → q.dining_out = none →
        q.transportation = none → q.is_homeowner = none → q.num_children = none →
        0 < sumBy (fun i => i.monthlyValue) b2.expenses →
        (reconcile b2 q).expenses =
          b2.expenses.map
            (scaleWithComputeValues (T2 / sumBy (fun i => i.monthlyValue) b2.expenses))) ∧
      (∀ (b2 : Budget) (q : Patch) (T2 : ℚ),
        q.liquid_assets = some T2 → ¬ T2 = 0 →
        q.checking_balance = none → q.savings_balance = none →
        q.emergency_fund = none → q.investment_balance = none →
        q.crypto_tickers = none → q.has_crypto = none → q.crypto_balance = none →
        q.stock_tickers = none → q.has_stocks = none → q.is_unemployed = none →
        0 < sumBy (fun i => i.totalValue)
          (b2.assets.filter (fun a => !isPricedAsset a)) →
        (reconcile b2 q).assets =
          b2.assets.map (fun i =>
            if isPricedAsset i then i
            else scaleAssetStyle (T2 / sumBy (fun i => i.totalValue)
              (b2.assets.filter (fun a => !isPricedAsset a))) i)) ∧
      (∀ (b2 : Budget) (q : Patch) (T2 : ℚ),
        q.nonliquid_assets = some T2 → ¬ T2 = 0 →
        q.home_value = none → q.car_value = none →
        q.jewelry_collectibles = none → q.business_equity = none →
        0 < sumBy (fun i => i.totalValue) b2.nonLiquidAssets →
        (reconcile b2 q).nonLiquidAssets =
          b2.nonLiquidAssets.map
            (scaleAssetStyle (T2 / sumBy (fun i => i.totalValue) b2.nonLiquidAssets))) ∧
      (∀ (b2 : Budget) (q : Patch) (T2 : ℚ),
        q.retirement_savings = some T2 → ¬ T2 = 0 →
        q.balance_401k = none → q.roth_ira = none → q.traditional_ira = none →
        q.pension_fund = none → q.balance_403b = none → q.sep_ira = none →
        0 < sumBy (fun i => i.totalValue) b2.retirement →
        (reconcile b2 q).retirement =
          b2.retirement.map
            (scaleAssetStyle (T2 / sumBy (fun i => i.totalValue) b2.retirement))) := by
  have hpre := liabilities_before p base
  have hpos1 : 0 < sumBy (fun i => i.totalValue) (preLiabilitySteps p base).liabilities := by
    rw [hpre]; exact hpos
  have hmain : (reconcile base p).liabilities =
      base.liabilities.map
        (scaleWithComputeValues (T / sumBy (fun i => i.totalValue) base.liabilities)) := by
    show (stepLiabilityScale p (stepLiabilityFields p (preLiabilitySteps p base))).liabilities = _
    rw [stepLiabilityFields_id p _ h1 h2 h3 h4 h5 h6,
      stepLiabilityScale_scales p _ T hl hT h1 h2 h3 h4 hpos1, hpre]
  refine ⟨hmain, ?_, ?_, ?_, ?_, ?_, ?_, ?_, ?_⟩
  · rw [hmain]
    simp [scaleWithComputeValues]
  · rw [hmain]
    simp [scaleWithComputeValues]
  · have hpreC := liabilities_before cScalePatch cScaleBase
    have hsumC : sumBy (fun i => i.totalValue) cScaleBase.liabilities = 400 := by
      norm_num [sumBy, mia, cScaleBase]
    have hposC : 0 < sumBy (fun i => i.totalValue)
        (preLiabilitySteps cScalePatch cScaleBase).liabilities := by
      rw [hpreC, hsumC]; norm_num
    have hmainC : (reconcile cScaleBase cScalePatch).liabilities =
        cScaleBase.liabilities.map
          (scaleWithComputeValues ((800 : ℚ) /
            sumBy (fun i => i.totalValue) (preLiabilitySteps cScalePatch cScaleBase).liabilities)) := by
      show (stepLiabilityScale cScalePatch
          (stepLiabilityFields cScalePatch (preLiabilitySteps cScalePatch cScaleBase))).liabilities = _
      rw [stepLiabilityFields_id _ _ rfl rfl rfl rfl rfl rfl,
        stepLiabilityScale_scales _ _ 800 rfl (by norm_num) rfl rfl rfl rfl hposC, hpreC]
    rw [hmainC, hpreC, hsumC]
    norm_num [cScaleBase, mia, scaleWithComputeValues, computeValues, jsRound]
  · intro b2 q T2 hmi hT2 hn1 hn2 hn3 hn4 hn5 hn6 hU hpos2
    unfold reconcile preLiabilitySteps
    rw [stepUnemployed_id q hU, stepIncomeFields_id q hn1 hn2 hn3 hn4 hn5 hn6]
    simp only [income_stepName, income_stepHomeowner, income_stepChildren, income_stepExpenseFields,
      income_stepExpenseScale, income_stepAssetFields, income_stepCrypto, income_stepStocks,
      income_stepLiquidScale, income_stepNonLiquidFields, income_stepNonLiquidScale,
      income_stepDiscount, income_stepRetirementFields, income_stepRetirementScale,
      income_stepLiabilityFields, income_stepLiabilityScale]
    have hposY : 0 < sumBy (fun i => i.monthlyValue) (stepChildren q (stepHomeowner q (stepName q b2))).income := by
      simp only [income_stepChildren, income_stepHomeowner, income_stepName]
      exact hpos2
    rw [stepIncomeScale_scales q _ T2 hmi hT2 hn1 hn2 hn3 hn4 hn5 hposY]
    simp only [income_stepChildren, income_stepHomeowner, income_stepName]
  · intro b2 q T2 hm hT2 he1 he2 he3 he4 he5 he6 he7 he8 he9 he10 he11 he12 he13 hH hC hpos2
    unfold reconcile preLiabilitySteps
    rw [stepHomeowner_id q hH, stepChildren_id q hC,
      stepExpenseFields_id q he1 he2 he3 he4 he5 he6 he7 he8 he9 he10 he11 he12 he13]
    simp only [expenses_stepName, expenses_stepUnemployed, expenses_stepIncomeFields,
      expenses_stepIncomeScale, expenses_stepAssetFields, expenses_stepCrypto,
      expenses_stepStocks, expenses_stepLiquidScale, expenses_stepNonLiquidFields,
      expenses_stepNonLiquidScale, expenses_stepDiscount, expenses_stepRetirementFields,
      expenses_stepRetirementScale, expenses_stepLiabilityFields, expenses_stepLiabilityScale]
    have hposY : 0 < sumBy (fun i => i.monthlyValue) (stepIncomeScale q (stepIncomeFields q (stepUnemployed q (stepName q b2)))).expenses := by
      simp only [expenses_stepIncomeScale, expenses_stepIncomeFields,
        expenses_stepUnemployed, expenses_stepName]
      exact hpos2
    rw [stepExpenseScale_scales q _ T2 hm hT2 he1 he2 he4 hposY]
    simp only [expenses_stepIncomeScale, expenses_stepIncomeFields,
      expenses_stepUnemployed, expenses_stepName]
  · intro b2 q T2 hla hT2 ha1 ha2 ha3 ha4 hc1 hc2 hc3 hs1 hs2 hU hpos2
    unfold reconcile preLiabilitySteps
    rw [stepUnemployed_id q hU, stepAssetFields_id q ha1 ha2 ha3 ha4,
      stepCrypto_id q hc1 hc2 hc3, stepStocks_id q hs1 hs2]
    simp only [assets_stepName, assets_stepHomeowner, assets_stepChildren, assets_stepIncomeFields,
      assets_stepIncomeScale, assets_stepExpenseFields, assets_stepExpenseScale,
      assets_stepNonLiquidFields, assets_stepNonLiquidScale, assets_stepDiscount,
      assets_stepRetirementFields, assets_stepRetirementScale, assets_stepLiabilityFields,
      assets_stepLiabilityScale]
    have hposY : 0 < sumBy (fun i => i.totalValue)
        ((stepExpenseScale q (stepExpenseFields q (stepIncomeScale q (stepIncomeFields q
        (stepChildren q (stepHomeowner q (stepName q b2))))))).assets.filter (fun a => !isPricedAsset a)) := by
      simp only [assets_stepExpenseScale, assets_stepExpenseFields, assets_stepIncomeScale,
        assets_stepIncomeFields, assets_stepChildren, assets_stepHomeowner, assets_stepName]
      exact hpos2
    rw [stepLiquidScale_scales q _ T2 hla hT2 ha1 ha2 ha3 hposY]
    simp only [assets_stepExpenseScale, assets_stepExpenseFields, assets_stepIncomeScale,
      assets_stepIncomeFields, assets_stepChildren, assets_stepHomeowner, assets_stepName]
  · intro b2 q T2 hna hT2 hnl1 hnl2 hnl3 hnl4 hpos2
    unfold reconcile preLiabilitySteps
    rw [stepNonLiquidFields_id q hnl1 hnl2 hnl3 hnl4]
    simp only [nonLiquid_stepName, nonLiquid_stepUnemployed, nonLiquid_stepHomeowner,
      nonLiquid_stepChildren, nonLiquid_stepIncomeFields, nonLiquid_stepIncomeScale,
      nonLiquid_stepExpenseFields, nonLiquid_stepExpenseScale, nonLiquid_stepAssetFields,
      nonLiquid_stepCrypto, nonLiquid_stepStocks, nonLiquid_stepLiquidScale,
      nonLiquid_stepDiscount, nonLiquid_stepRetirementFields, nonLiquid_stepRetirementScale,
      nonLiquid_stepLiabilityFields, nonLiquid_stepLiabilityScale]
    have hposY : 0 < sumBy (fun i => i.totalValue) (stepLiquidScale q (stepStocks q (stepCrypto q (stepAssetFields q (stepExpenseScale q
        (stepExpenseFields q (stepIncomeScale q (stepIncomeFields q (stepChildren q
        (stepHomeowner q (stepUnemployed q (stepName q b2)))))))))))).nonLiquidAssets := by
      simp only [nonLiquid_stepLiquidScale, nonLiquid_stepStocks, nonLiquid_stepCrypto,
        nonLiquid_stepAssetFields, nonLiquid_stepExpenseScale, nonLiquid_stepExpenseFields,
        nonLiquid_stepIncomeScale, nonLiquid_stepIncomeFields, nonLiquid_stepChildren,
        nonLiquid_stepHomeowner, nonLiquid_stepUnemployed, nonLiquid_stepName]
      exact hpos2
    rw [stepNonLiquidScale_scales q _ T2 hna hT2 hnl1 hnl2 hposY]
    simp only [nonLiquid_stepLiquidScale, nonLiquid_stepStocks, nonLiquid_stepCrypto,
      nonLiquid_stepAssetFields, nonLiquid_stepExpenseScale, nonLiquid_stepExpenseFields,
      nonLiquid_stepIncomeScale, nonLiquid_stepIncomeFields, nonLiquid_stepChildren,
      nonLiquid_stepHomeowner, nonLiquid_stepUnemployed, nonLiquid_stepName]
  · intro b2 q T2 hrs hT2 hr1 hr2 hr3 hr4 hr5 hr6 hpos2
    unfold reconcile preLiabilitySteps
    rw [stepRetirementFields_id q hr1 hr2 hr3 hr4 hr5 hr6]
    simp only [retirement_stepName, retirement_stepUnemployed, retirement_stepHomeowner,
      retirement_stepChildren, retirement_stepIncomeFields, retirement_stepIncomeScale,
      retirement_stepExpenseFields, retirement_stepExpenseScale, retirement_stepAssetFields,
      retirement_stepCrypto, retirement_stepStocks, retirement_stepLiquidScale,
      retirement_stepNonLiquidFields, retirement_stepNonLiquidScale, retirement_stepDiscount,
      retirement_stepLiabilityFields, retirement_stepLiabilityScale]
    have hposY : 0 < sumBy (fun i => i.totalValue) (stepDiscount q (stepNonLiquidScale q (stepNonLiquidFields q (stepLiquidScale q
        (stepStocks q (stepCrypto q (stepAssetFields q (stepExpenseScale q (stepExpenseFields q
        (stepIncomeScale q (stepIncomeFields q (stepChildren q (stepHomeowner q
        (stepUnemployed q (stepName q b2))))))))))))))).retirement := by
      simp only [retirement_stepDiscount, retirement_stepNonLiquidScale,
        retirement_stepNonLiquidFields, retirement_stepLiquidScale, retirement_stepStocks,
        retirement_stepCrypto, retirement_stepAssetFields, retirement_stepExpenseScale,
        retirement_stepExpenseFields, retirement_stepIncomeScale, retirement_stepIncomeFields,
        retirement_stepChildren, retirement_stepHomeowner, retirement_stepUnemployed,
        retirement_stepName]
      exact hpos2
    rw [stepRetirementScale_scales q _ T2 hrs hT2 hr1 hr2 hr3 hposY]
    simp only [retirement_stepDiscount, retirement_stepNonLiquidScale,
      retirement_stepNonLiquidFields, retirement_stepLiquidScale, retirement_stepStocks,
      retirement_stepCrypto, retirement_stepAssetFields, retirement_stepExpenseScale,
      retirement_stepExpenseFields, retirement_stepIncomeScale, retirement_stepIncomeFields,
      retirement_stepChildren, retirement_stepHomeowner, retirement_stepUnemployed,
      retirement_stepName]

/-- C6 witness: aggregate_proportional_scaling applied to the concrete
[100, 300] liability base with aggregate 800. -/
theorem aggregate_proportional_scaling_witness :
    (0 : ℚ) < sumBy (fun i => i.totalValue) cScaleBase.liabilities ∧
      (reconcile cScaleBase cScalePatch).liabilities.map (fun i => i.id) =
        cScaleBase.liabilities.map (fun i => i.id) :=
  ⟨by norm_num [sumBy, mia, cScaleBase],
    (aggregate_proportional_scaling cScaleBase cScalePatch 800 rfl (by norm_num)
      rfl rfl rfl rfl rfl rfl (by norm_num [sumBy, mia, cScaleBase])).2.2.1⟩

-- Claim C8 -------------------------------------------------------------------

/-- C8 (counterexample): the claim says that when the supplied aggregate
total is zero the fallback-item rule applies, so an empty base sequence gets
exactly one generic item.  In the code a zero aggregate is falsy and the
whole block is skipped: reconciling liabilities = 0 against an empty base
leaves the liabilities empty, not a one-item list. -/
theorem zero_total_no_fallback_cex :
    (reconcile (emptyBudget 0) { liabilities := some 0 }).liabilities = [] ∧
      ¬ (reconcile (emptyBudget 0) { liabilities := some 0 }).liabilities.length = 1 := by
  have h : (reconcile (emptyBudget 0) { liabilities := some 0 }).liabilities = [] := rfl
  exact ⟨h, by rw [h]; decide⟩

/-- C8 (amended): in every reconciliation group a supplied aggregate total of
zero is falsy, so the whole aggregate rule for that group is skipped (no
scaling and no fallback item); no division by zero ever occurs because a
zero or empty existing total short-circuits before the ratio is formed.
When the supplied total T is nonzero and no named fields of the group are
supplied, the fallback differs by group: liabilities get one generic
"Total Debt" item on an empty base, income gets one Monthly "Income" item on
an empty base, retirement gets one "Retirement Savings" item on an empty
base, while the expense, liquid-asset and non-liquid-asset groups have no
fallback at all (an empty base stays empty); in every group a nonempty base
whose existing total is zero is left unchanged. -/
theorem aggregate_guard (base : Budget) (p : Patch) (T : ℚ)
    (hl : p.liabilities = some T)
    (h1 : p.mortgage_balance = none) (h2 : p.student_loans = none)
    (h3 : p.car_loan = none) (h4 : p.credit_card_debt = none)
    (h5 : p.personal_loan = none) (h6 : p.medical_debt = none) :
    (T = 0 → (reconcile base p).liabilities = base.liabilities) ∧
      (¬ T = 0 → base.liabilities = [] →
        (reconcile base p).liabilities = [mia "Total Debt" T]) ∧
      (¬ T = 0 → sumBy (fun i => i.totalValue) base.liabilities = 0 →
        ¬ base.liabilities = [] →
        (reconcile base p).liabilities = base.liabilities) ∧
      (∀ (b2 : Budget) (q : Patch),
        q.is_unemployed = none → q.annual_income = none →
        q.salary = none → q.side_income = none → q.rental_income = none →
        q.social_security = none → q.pension_income = none → q.investment_income = none →
        (q.monthly_income = some 0 → (reconcile b2 q).income = b2.income) ∧
        (∀ T2, q.monthly_income = some T2 → ¬ T2 = 0 →
          (b2.income = [] → (reconcile b2 q).income = [mi "Income" T2 .monthly]) ∧
          (sumBy (fun i => i.monthlyValue) b2.income = 0 → ¬ b2.income = [] →
            (reconcile b2 q).income = b2.income))) ∧
      (∀ (b2 : Budget) (q : Patch),
        q.is_homeowner = none → q.num_children = none →
        q.rent = none → q.mortgage_payment = none → q.utilities = none →
        q.groceries = none → q.car_payment = none → q.car_insurance = none →
        q.health_insurance = none → q.phone_bill = none → q.internet = none →
        q.childcare = none → q.subscriptions = none → q.dining_out = none →
        q.transportation = none →
        (q.monthly_expenses = some 0 → (reconcile b2 q).expenses = b2.expenses) ∧
        (∀ T2, q.monthly_expenses = some T2 → ¬ T2 = 0 →
          (sumBy (fun i => i.monthlyValue) b2.expenses = 0 →
            (reconcile b2 q).expenses = b2.expenses) ∧
          (b2.expenses = [] → (reconcile b2 q).expenses = []))) ∧
      (∀ (b2 : Budget) (q : Patch),
        q.is_unemployed = none →
        q.checking_balance = none → q.savings_balance = none →
        q.emergency_fund = none → q.investment_balance = none →
        q.crypto_tickers = none → q.has_crypto = none → q.crypto_balance = none →
        q.stock_tickers = none → q.has_stocks = none →
        (q.liquid_assets = some 0 → (reconcile b2 q).assets = b2.assets) ∧
        (∀ T2, q.liquid_assets = some T2 → ¬ T2 = 0 →
          (sumBy (fun i => i.totalValue)
              (b2.assets.filter (fun a => !isPricedAsset a)) = 0 →
            (reconcile b2 q).assets = b2.assets) ∧
          (b2.assets = [] → (reconcile b2 q).assets = []))) ∧
      (∀ (b2 : Budget) (q : Patch),
        q.home_value = none → q.car_value = none →
        q.jewelry_collectibles = none → q.business_equity = none →
        (q.nonliquid_assets = some 0 →
          (reconcile b2 q).nonLiquidAssets = b2.nonLiquidAssets) ∧
        (∀ T2, q.nonliquid_assets = some T2 → ¬ T2 = 0 →
          (sumBy (fun i => i.totalValue) b2.nonLiquidAssets = 0 →
            (reconcile b2 q).nonLiquidAssets = b2.nonLiquidAssets) ∧
          (b2.nonLiquidAssets = [] → (reconcile b2 q).nonLiquidAssets = []))) ∧
      (∀ (b2 : Budget) (q : Patch),
        q.balance_401k = none → q.roth_ira = none → q.traditional_ira = none →
        q.pension_fund = none → q.balance_403b = none → q.sep_ira = none →
        (q.retirement_savings = some 0 → (reconcile b2 q).retirement = b2.retirement) ∧
        (∀ T2, q.retirement_savings = some T2 → ¬ T2 = 0 →
          (b2.retirement = [] →
            (reconcile b2 q).retirement = [mia "Retirement Savings" T2]) ∧
          (sumBy (fun i => i.totalValue) b2.retirement = 0 → ¬ b2.retirement = [] →
            (reconcile b2 q).retirement = b2.retirement))) := by
  have hpre := liabilities_before p base
  refine ⟨?_, ?_, ?_, ?_, ?_, ?_, ?_, ?_⟩
  · intro hT0
    subst hT0
    show (stepLiabilityScale p (stepLiabilityFields p (preLiabilitySteps p base))).liabilities = _
    rw [stepLiabilityFields_id p _ h1 h2 h3 h4 h5 h6, stepLiabilityScale_zero p _ hl, hpre]
  · intro hT hempty
    show (stepLiabilityScale p (stepLiabilityFields p (preLiabilitySteps p base))).liabilities = _
    rw [stepLiabilityFields_id p _ h1 h2 h3 h4 h5 h6,
      stepLiabilityScale_fallback p _ T hl hT h1 h2 h3 h4 (by rw [hpre]; exact hempty)]
  · intro hT hsum hne
    show (stepLiabilityScale p (stepLiabilityFields p (preLiabilitySteps p base))).liabilities = _
    rw [stepLiabilityFields_id p _ h1 h2 h3 h4 h5 h6,
      stepLiabilityScale_keep p _ T hl hT h1 h2 h3 h4 (by rw [hpre]; exact hsum)
        (by rw [hpre]; exact hne), hpre]
  · intro b2 q hU han hn1 hn2 hn3 hn4 hn5 hn6
    refine ⟨?_, ?_⟩
    · intro h0
      unfold reconcile preLiabilitySteps
      rw [stepUnemployed_id q hU, stepIncomeFields_id q hn1 hn2 hn3 hn4 hn5 hn6,
        stepIncomeScale_zero q _ h0 han]
      simp only [income_stepName, income_stepHomeowner, income_stepChildren, income_stepExpenseFields,
      income_stepExpenseScale, income_stepAssetFields, income_stepCrypto, income_stepStocks,
      income_stepLiquidScale, income_stepNonLiquidFields, income_stepNonLiquidScale,
      income_stepDiscount, income_stepRetirementFields, income_stepRetirementScale,
      income_stepLiabilityFields, income_stepLiabilityScale]
    · intro T2 hmi hT2
      refine ⟨?_, ?_⟩
      · intro hempty
        unfold reconcile preLiabilitySteps
        rw [stepUnemployed_id q hU, stepIncomeFields_id q hn1 hn2 hn3 hn4 hn5 hn6]
        simp only [income_stepName, income_stepHomeowner, income_stepChildren, income_stepExpenseFields,
      income_stepExpenseScale, income_stepAssetFields, income_stepCrypto, income_stepStocks,
      income_stepLiquidScale, income_stepNonLiquidFields, income_stepNonLiquidScale,
      income_stepDiscount, income_stepRetirementFields, income_stepRetirementScale,
      income_stepLiabilityFields, income_stepLiabilityScale]
        have hemptyY : (stepChildren q (stepHomeowner q (stepName q b2))).income = [] := by
          simp only [income_stepChildren, income_stepHomeowner, income_stepName]
          exact hempty
        rw [stepIncomeScale_fallback q _ T2 hmi hT2 hn1 hn2 hn3 hn4 hn5 hemptyY]
      · intro hsum hne
        unfold reconcile preLiabilitySteps
        rw [stepUnemployed_id q hU, stepIncomeFields_id q hn1 hn2 hn3 hn4 hn5 hn6]
        simp only [income_stepName, income_stepHomeowner, income_stepChildren, income_stepExpenseFields,
      income_stepExpenseScale, income_stepAssetFields, income_stepCrypto, income_stepStocks,
      income_stepLiquidScale, income_stepNonLiquidFields, income_stepNonLiquidScale,
      income_stepDiscount, income_stepRetirementFields, income_stepRetirementScale,
      income_stepLiabilityFields, income_stepLiabilityScale]
        have hsumY : sumBy (fun i => i.monthlyValue) (stepChildren q (stepHomeowner q (stepName q b2))).income = 0 := by
          simp only [income_stepChildren, income_stepHomeowner, income_stepName]
          exact hsum
        have hneY : ¬ (stepChildren q (stepHomeowner q (stepName q b2))).income = [] := by
          simp only [income_stepChildren, income_stepHomeowner, income_stepName]
          exact hne
        rw [stepIncomeScale_keep q _ T2 hmi hT2 hn1 hn2 hn3 hn4 hn5 hsumY hneY]
        simp only [income_stepChildren, income_stepHomeowner, income_stepName]
  · intro b2 q hH hC he1 he2 he3 he4 he5 he6 he7 he8 he9 he10 he11 he12 he13
    refine ⟨?_, ?_⟩
    · intro h0
      unfold reconcile preLiabilitySteps
      rw [stepHomeowner_id q hH, stepChildren_id q hC,
        stepExpenseFields_id q he1 he2 he3 he4 he5 he6 he7 he8 he9 he10 he11 he12 he13,
        stepExpenseScale_zero q _ h0]
      simp only [expenses_stepName, expenses_stepUnemployed, expenses_stepIncomeFields,
      expenses_stepIncomeScale, expenses_stepAssetFields, expenses_stepCrypto,
      expenses_stepStocks, expenses_stepLiquidScale, expenses_stepNonLiquidFields,
      expenses_stepNonLiquidScale, expenses_stepDiscount, expenses_stepRetirementFields,
      expenses_stepRetirementScale, expenses_stepLiabilityFields, expenses_stepLiabilityScale]
    · intro T2 hm hT2
      have hkeep : sumBy (fun i => i.monthlyValue) b2.expenses = 0 →
          (reconcile b2 q).expenses = b2.expenses := by
        intro hsum
        unfold reconcile preLiabilitySteps
        rw [stepHomeowner_id q hH, stepChildren_id q hC,
          stepExpenseFields_id q he1 he2 he3 he4 he5 he6 he7 he8 he9 he10 he11 he12 he13]
        simp only [expenses_stepName, expenses_stepUnemployed, expenses_stepIncomeFields,
      expenses_stepIncomeScale, expenses_stepAssetFields, expenses_stepCrypto,
      expenses_stepStocks, expenses_stepLiquidScale, expenses_stepNonLiquidFields,
      expenses_stepNonLiquidScale, expenses_stepDiscount, expenses_stepRetirementFields,
      expenses_stepRetirementScale, expenses_stepLiabilityFields, expenses_stepLiabilityScale]
        have hsumY : sumBy (fun i => i.monthlyValue) (stepIncomeScale q (stepIncomeFields q (stepUnemployed q (stepName q b2)))).expenses = 0 := by
          simp only [expenses_stepIncomeScale, expenses_stepIncomeFields, expenses_stepUnemployed,
        expenses_stepName]
          exact hsum
        rw [stepExpenseScale_keep q _ T2 hm hT2 he1 he2 he4 hsumY]
        simp only [expenses_stepIncomeScale, expenses_stepIncomeFields, expenses_stepUnemployed,
        expenses_stepName]
      refine ⟨hkeep, ?_⟩
      intro hempty
      rw [hkeep (by rw [hempty]; rfl)]
      exact hempty
  · intro b2 q hU ha1 ha2 ha3 ha4 hc1 hc2 hc3 hs1 hs2
    refine ⟨?_, ?_⟩
    · intro h0
      unfold reconcile preLiabilitySteps
      rw [stepUnemployed_id q hU, stepAssetFields_id q ha1 ha2 ha3 ha4,
        stepCrypto_id q hc1 hc2 hc3, stepStocks_id q hs1 hs2,
        stepLiquidScale_zero q _ h0]
      simp only [assets_stepName, assets_stepHomeowner, assets_stepChildren, assets_stepIncomeFields,
      assets_stepIncomeScale, assets_stepExpenseFields, assets_stepExpenseScale,
      assets_stepNonLiquidFields, assets_stepNonLiquidScale, assets_stepDiscount,
      assets_stepRetirementFields, assets_stepRetirementScale, assets_stepLiabilityFields,
      assets_stepLiabilityScale]
    · intro T2 hla hT2
      have hkeep : sumBy (fun i => i.totalValue)
          (b2.assets.filter (fun a => !isPricedAsset a)) = 0 →
          (reconcile b2 q).assets = b2.assets := by
        intro hsum
        unfold reconcile preLiabilitySteps
        rw [stepUnemployed_id q hU, stepAssetFields_id q ha1 ha2 ha3 ha4,
          stepCrypto_id q hc1 hc2 hc3, stepStocks_id q hs1 hs2]
        simp only [assets_stepName, assets_stepHomeowner, assets_stepChildren, assets_stepIncomeFields,
      assets_stepIncomeScale, assets_stepExpenseFields, assets_stepExpenseScale,
      assets_stepNonLiquidFields, assets_stepNonLiquidScale, assets_stepDiscount,
      assets_stepRetirementFields, assets_stepRetirementScale, assets_stepLiabilityFields,
      assets_stepLiabilityScale]
        have hsumY : sumBy (fun i => i.totalValue)
            ((stepExpenseScale q (stepExpenseFields q (stepIncomeScale q (stepIncomeFields q
        (stepChildren q (stepHomeowner q (stepName q b2))))))).assets.filter (fun a => !isPricedAsset a)) = 0 := by
          simp only [assets_stepExpenseScale, assets_stepExpenseFields, assets_stepIncomeScale,
        assets_stepIncomeFields, assets_stepChildren, assets_stepHomeowner, assets_stepName]
          exact hsum
        rw [stepLiquidScale_keep q _ T2 hla hT2 ha1 ha2 ha3 hsumY]
        simp only [assets_stepExpenseScale, assets_stepExpenseFields, assets_stepIncomeScale,
        assets_stepIncomeFields, assets_stepChildren, assets_stepHomeowner, assets_stepName]
      refine ⟨hkeep, ?_⟩
      intro hempty
      rw [hkeep (by rw [hempty]; rfl)]
      exact hempty
  · intro b2 q hnl1 hnl2 hnl3 hnl4
    refine ⟨?_, ?_⟩
    · intro h0
      unfold reconcile preLiabilitySteps
      rw [stepNonLiquidFields_id q hnl1 hnl2 hnl3 hnl4, stepNonLiquidScale_zero q _ h0]
      simp only [nonLiquid_stepName, nonLiquid_stepUnemployed, nonLiquid_stepHomeowner,
      nonLiquid_stepChildren, nonLiquid_stepIncomeFields, nonLiquid_stepIncomeScale,
      nonLiquid_stepExpenseFields, nonLiquid_stepExpenseScale, nonLiquid_stepAssetFields,
      nonLiquid_stepCrypto, nonLiquid_stepStocks, nonLiquid_stepLiquidScale,
      nonLiquid_stepDiscount, nonLiquid_stepRetirementFields, nonLiquid_stepRetirementScale,
      nonLiquid_stepLiabilityFields, nonLiquid_stepLiabilityScale]
    · intro T2 hna hT2
      have hkeep : sumBy (fun i => i.totalValue) b2.nonLiquidAssets = 0 →
          (reconcile b2 q).nonLiquidAssets = b2.nonLiquidAssets := by
        intro hsum
        unfold reconcile preLiabilitySteps
        rw [stepNonLiquidFields_id q hnl1 hnl2 hnl3 hnl4]
        simp only [nonLiquid_stepName, nonLiquid_stepUnemployed, nonLiquid_stepHomeowner,
      nonLiquid_stepChildren, nonLiquid_stepIncomeFields, nonLiquid_stepIncomeScale,
      nonLiquid_stepExpenseFields, nonLiquid_stepExpenseScale, nonLiquid_stepAssetFields,
      nonLiquid_stepCrypto, nonLiquid_stepStocks, nonLiquid_stepLiquidScale,
      nonLiquid_stepDiscount, nonLiquid_stepRetirementFields, nonLiquid_stepRetirementScale,
      nonLiquid_stepLiabilityFields, nonLiquid_stepLiabilityScale]
        have hsumY : sumBy (fun i => i.totalValue) (stepLiquidScale q (stepStocks q (stepCrypto q (stepAssetFields q (stepExpenseScale q
        (stepExpenseFields q (stepIncomeScale q (stepIncomeFields q (stepChildren q
        (stepHomeowner q (stepUnemployed q (stepName q b2)))))))))))).nonLiquidAssets = 0 := by
          simp only [nonLiquid_stepLiquidScale, nonLiquid_stepStocks, nonLiquid_stepCrypto,
        nonLiquid_stepAssetFields, nonLiquid_stepExpenseScale, nonLiquid_stepExpenseFields,
        nonLiquid_stepIncomeScale, nonLiquid_stepIncomeFields, nonLiquid_stepChildren,
        nonLiquid_stepHomeowner, nonLiquid_stepUnemployed, nonLiquid_stepName]
          exact hsum
        rw [stepNonLiquidScale_keep q _ T2 hna hT2 hnl1 hnl2 hsumY]
        simp only [nonLiquid_stepLiquidScale, nonLiquid_stepStocks, nonLiquid_stepCrypto,
        nonLiquid_stepAssetFields, nonLiquid_stepExpenseScale, nonLiquid_stepExpenseFields,
        nonLiquid_stepIncomeScale, nonLiquid_stepIncomeFields, nonLiquid_stepChildren,
        nonLiquid_stepHomeowner, nonLiquid_stepUnemployed, nonLiquid_stepName]
      refine ⟨hkeep, ?_⟩
      intro hempty
      rw [hkeep (by rw [hempty]; rfl)]
      exact hempty
  · intro b2 q hr1 hr2 hr3 hr4 hr5 hr6
    refine ⟨?_, ?_⟩
    · intro h0
      unfold reconcile preLiabilitySteps
      rw [stepRetirementFields_id q hr1 hr2 hr3 hr4 hr5 hr6, stepRetirementScale_zero q _ h0]
      simp only [retirement_stepName, retirement_stepUnemployed, retirement_stepHomeowner,
      retirement_stepChildren, retirement_stepIncomeFields, retirement_stepIncomeScale,
      retirement_stepExpenseFields, retirement_stepExpenseScale, retirement_stepAssetFields,
      retirement_stepCrypto, retirement_stepStocks, retirement_stepLiquidScale,
      retirement_stepNonLiquidFields, retirement_stepNonLiquidScale, retirement_stepDiscount,
      retirement_stepLiabilityFields, retirement_stepLiabilityScale]
    · intro T2 hrs hT2
      refine ⟨?_, ?_⟩
      · intro hempty
        unfold reconcile preLiabilitySteps
        rw [stepRetirementFields_id q hr1 hr2 hr3 hr4 hr5 hr6]
        simp only [retirement_stepName, retirement_stepUnemployed, retirement_stepHomeowner,
      retirement_stepChildren, retirement_stepIncomeFields, retirement_stepIncomeScale,
      retirement_stepExpenseFields, retirement_stepExpenseScale, retirement_stepAssetFields,
      retirement_stepCrypto, retirement_stepStocks, retirement_stepLiquidScale,
      retirement_stepNonLiquidFields, retirement_stepNonLiquidScale, retirement_stepDiscount,
      retirement_stepLiabilityFields, retirement_stepLiabilityScale]
        have hemptyY : (stepDiscount q (stepNonLiquidScale q (stepNonLiquidFields q (stepLiquidScale q
        (stepStocks q (stepCrypto q (stepAssetFields q (stepExpenseScale q (stepExpenseFields q
        (stepIncomeScale q (stepIncomeFields q (stepChildren q (stepHomeowner q
        (stepUnemployed q (stepName q b2))))))))))))))).retirement = [] := by
          simp only [retirement_stepDiscount, retirement_stepNonLiquidScale, retirement_stepNonLiquidFields,
        retirement_stepLiquidScale, retirement_stepStocks, retirement_stepCrypto,
        retirement_stepAssetFields, retirement_stepExpenseScale, retirement_stepExpenseFields,
        retirement_stepIncomeScale, retirement_stepIncomeFields, retirement_stepChildren,
        retirement_stepHomeowner, retirement_stepUnemployed, retirement_stepName]
          exact hempty
        rw [stepRetirementScale_fallback q _ T2 hrs hT2 hr1 hr2 hr3 hemptyY]
      · intro hsum hne
        unfold reconcile preLiabilitySteps
        rw [stepRetirementFields_id q hr1 hr2 hr3 hr4 hr5 hr6]
        simp only [retirement_stepName, retirement_stepUnemployed, retirement_stepHomeowner,
      retirement_stepChildren, retirement_stepIncomeFields, retirement_stepIncomeScale,
      retirement_stepExpenseFields, retirement_stepExpenseScale, retirement_stepAssetFields,
      retirement_stepCrypto, retirement_stepStocks, retirement_stepLiquidScale,
      retirement_stepNonLiquidFields, retirement_stepNonLiquidScale, retirement_stepDiscount,
      retirement_stepLiabilityFields, retirement_stepLiabilityScale]
        have hsumY : sumBy (fun i => i.totalValue) (stepDiscount q (stepNonLiquidScale q (stepNonLiquidFields q (stepLiquidScale q
        (stepStocks q (stepCrypto q (stepAssetFields q (stepExpenseScale q (stepExpenseFields q
        (stepIncomeScale q (stepIncomeFields q (stepChildren q (stepHomeowner q
        (stepUnemployed q (stepName q b2))))))))))))))).retirement = 0 := by
          simp only [retirement_stepDiscount, retirement_stepNonLiquidScale, retirement_stepNonLiquidFields,
        retirement_stepLiquidScale, retirement_stepStocks, retirement_stepCrypto,
        retirement_stepAssetFields, retirement_stepExpenseScale, retirement_stepExpenseFields,
        retirement_stepIncomeScale, retirement_stepIncomeFields, retirement_stepChildren,
        retirement_stepHomeowner, retirement_stepUnemployed, retirement_stepName]
          exact hsum
        have hneY : ¬ (stepDiscount q (stepNonLiquidScale q (stepNonLiquidFields q (stepLiquidScale q
        (stepStocks q (stepCrypto q (stepAssetFields q (stepExpenseScale q (stepExpenseFields q
        (stepIncomeScale q (stepIncomeFields q (stepChildren q (stepHomeowner q
        (stepUnemployed q (stepName q b2))))))))))))))).retirement = [] := by
          simp only [retirement_stepDiscount, retirement_stepNonLiquidScale, retirement_stepNonLiquidFields,
        retirement_stepLiquidScale, retirement_stepStocks, retirement_stepCrypto,
        retirement_stepAssetFields, retirement_stepExpenseScale, retirement_stepExpenseFields,
        retirement_stepIncomeScale, retirement_stepIncomeFields, retirement_stepChildren,
        retirement_stepHomeowner, retirement_stepUnemployed, retirement_stepName]
          exact hne
        rw [stepRetirementScale_keep q _ T2 hrs hT2 hr1 hr2 hr3 hsumY hneY]
        simp only [retirement_stepDiscount, retirement_stepNonLiquidScale, retirement_stepNonLiquidFields,
        retirement_stepLiquidScale, retirement_stepStocks, retirement_stepCrypto,
        retirement_stepAssetFields, retirement_stepExpenseScale, retirement_stepExpenseFields,
        retirement_stepIncomeScale, retirement_stepIncomeFields, retirement_stepChildren,
        retirement_stepHomeowner, retirement_stepUnemployed, retirement_stepName]

/-- C8 witness: aggregate_guard applied at an empty base with a nonzero
liabilities aggregate of 500, yielding the single fallback item. -/
theorem aggregate_guard_witness :
    (¬ (500 : ℚ) = 0) ∧
      (reconcile (emptyBudget 0) { liabilities := some 500 }).liabilities =
        [mia "Total Debt" 500] :=
  ⟨by norm_num,
    (aggregate_guard (emptyBudget 0) { liabilities := some 500 } 500
      rfl rfl rfl rfl rfl rfl rfl).2.1 (by norm_num) rfl⟩

-- Price refresh (refreshPrices, MyBudget.tsx lines 1508-1546) -----------------

/-- itemTruthyTicker is the truthiness test on item.ticker (present and
nonempty). -/
def itemTruthyTicker (i : BudgetItem) : Bool :=
  match i.ticker with
  | some t => decide (¬ t = "")
  | none => false

/-- priceSkip is the guard at line 1526: skip items that are manual or
untyped, have no (truthy) ticker, or whose ticker has no truthy quote. -/
def priceSkip (quotes : List (String × ℚ)) (item : BudgetItem) : Bool :=
  (match item.assetType with
   | none => true
   | some t => t = .manual) ||
  !itemTruthyTicker item ||
  (match item.ticker with
   | none => true
   | some t =>
     match quotes.lookup t with
     | none => true
     | some p => p = 0)

/-- updItem is the map body of updateSection: set livePrice, recompute amount
from quantity when truthy, and recompute derived fields via computeValues. -/
def updItem (quotes : List (String × ℚ)) (item : BudgetItem) : BudgetItem :=
  if priceSkip quotes item then item
  else
    let newPrice := (quotes.lookup (item.ticker.getD "")).getD 0
    let newAmount :=
      match item.quantity with
      | some q => if q = 0 then item.amount else round2 (newPrice * q)
      | none => item.amount
    { item with
      livePrice := some newPrice,
      amount := newAmount,
      totalValue := (computeValues newAmount item.frequency).totalValue,
      monthlyValue := (computeValues newAmount item.frequency).monthlyValue }

/-- updateSection maps updItem over one asset section. -/
def updateSection (quotes : List (String × ℚ)) (items : List BudgetItem) :
    List BudgetItem :=
  items.map (updItem quotes)

/-- hasTickerItem: some crypto- or stock-typed item with a truthy ticker
exists among the three asset sections (the early-return guard at line 1513). -/
def hasTickerItem (b : Budget) : Bool :=
  let all := b.assets ++ b.nonLiquidAssets ++ b.retirement
  (all.filter (fun i => i.assetType = some .crypto && itemTruthyTicker i)).length ≠ 0 ||
  (all.filter (fun i => i.assetType = some .stock && itemTruthyTicker i)).length ≠ 0

/-- refreshPrices, from MyBudget.tsx lines 1508-1546: the pure merge applied
once quotes are fetched.  When no crypto/stock item has a ticker the whole
operation is a no-op (early return before fetching); otherwise the three
asset sections are mapped through updItem and lastPriceRefresh and updatedAt
are set unconditionally. -/
def refreshPrices (b : Budget) (quotes : List (String × ℚ)) (now : ℕ) : Budget :=
  if hasTickerItem b then
    { b with
      assets := updateSection quotes b.assets,
      nonLiquidAssets := updateSection quotes b.nonLiquidAssets,
      retirement := updateSection quotes b.retirement,
      lastPriceRefresh := some now,
      updatedAt := now }
  else b

-- Claim C9 -------------------------------------------------------------------

/-- cPriceBudget: a budget with a single crypto asset carrying a ticker and
no quote for it. -/
def cPriceBudget : Budget :=
  { emptyBudget 0 with
    assets := [{ mia "Bitcoin" 0 with assetType := some .crypto, ticker := some "bitcoin" }] }

/-- C9 (counterexample): the claim says lastPriceRefresh is recorded only if
at least one item was actually updated by a matching quote.  Refreshing
cPriceBudget against an empty quotes map updates no item (the single item is
returned untouched), yet lastPriceRefresh is set to now. -/
theorem refresh_records_without_update_cex :
    (refreshPrices cPriceBudget [] 7).assets = cPriceBudget.assets ∧
      (refreshPrices cPriceBudget [] 7).lastPriceRefresh = some 7 ∧
      cPriceBudget.lastPriceRefresh = none := by
  refine ⟨?_, ?_, rfl⟩ <;> rfl

/-- C9 (amended): refreshPrices leaves every item that is manual/untyped,
has no ticker, or has no (truthy) matching quote entirely untouched (stale
livePrice retained, no error), and is a complete no-op when no crypto/stock
item carries a ticker; but lastPriceRefresh is recorded whenever such a
ticker item exists — i.e. whenever a refresh was attempted — even if no item
was actually updated by a matching quote. -/
theorem refreshPrices_spec (b : Budget) (quotes : List (String × ℚ)) (now : ℕ) :
    (hasTickerItem b = false → refreshPrices b quotes now = b) ∧
      (hasTickerItem b = true →
        (refreshPrices b quotes now).lastPriceRefresh = some now ∧
        (refreshPrices b quotes now).assets = b.assets.map (updItem quotes) ∧
        (refreshPrices b quotes now).nonLiquidAssets = b.nonLiquidAssets.map (updItem quotes) ∧
        (refreshPrices b quotes now).retirement = b.retirement.map (updItem quotes) ∧
        (refreshPrices b quotes now).income = b.income ∧
        (refreshPrices b quotes now).expenses = b.expenses ∧
        (refreshPrices b quotes now).liabilities = b.liabilities) ∧
      (∀ it : BudgetItem, priceSkip quotes it = true → updItem quotes it = it) := by
  refine ⟨?_, ?_, ?_⟩
  · intro h
    simp [refreshPrices, h]
  · intro h
    simp [refreshPrices, h, updateSection]
  · intro it hskip
    simp [updItem, hskip]

/-- C9 witness: refreshPrices_spec applied to cPriceBudget with no quotes:
the refresh is attempted, every item skips, and lastPriceRefresh is set. -/
theorem refreshPrices_spec_witness :
    hasTickerItem cPriceBudget = true ∧
      (refreshPrices cPriceBudget [] 7).lastPriceRefresh = some 7 :=
  ⟨by rfl, ((refreshPrices_spec cPriceBudget [] 7).2.1 (by rfl)).1⟩

-- Reorder (reorderItems, MyBudget.tsx lines 1575-1582) ------------------------

/-- Sect names one of the six item sections of a Budget. -/
inductive Sect
  | income
  | expenses
  | assets
  | nonLiquidAssets
  | retirement
  | liabilities
deriving DecidableEq, Repr

/-- getSection projects the named section. -/
def getSection (b : Budget) : Sect → List BudgetItem
  | .income => b.income
  | .expenses => b.expenses
  | .assets => b.assets
  | .nonLiquidAssets => b.nonLiquidAssets
  | .retirement => b.retirement
  | .liabilities => b.liabilities

/-- setSection replaces the named section. -/
def setSection (b : Budget) (s : Sect) (l : List BudgetItem) : Budget :=
  match s with
  | .income => { b with income := l }
  | .expenses => { b with expenses := l }
  | .assets => { b with assets := l }
  | .nonLiquidAssets => { b with nonLiquidAssets := l }
  | .retirement => { b with retirement := l }
  | .liabilities => { b with liabilities := l }

/-- spliceMove models arr.splice(fromIndex, 1) followed by
arr.splice(toIndex, 0, moved).  For an in-range fromIndex this removes the
element and reinserts it at toIndex (clamped to the end, as splice clamps);
an out-of-range fromIndex would make JavaScript insert undefined, which is
outside this model and outside the claim's in-range hypothesis. -/
def spliceMove (l : List BudgetItem) (fi ti : ℕ) : List BudgetItem :=
  match l[fi]? with
  | none => l
  | some moved =>
    let arr := l.eraseIdx fi
    arr.insertIdx (min ti arr.length) moved

/-- reorderItems, from MyBudget.tsx lines 1575-1582. -/
def reorderItems (b : Budget) (s : Sect) (fi ti : ℕ) (now : ℕ) : Budget :=
  { setSection b s (spliceMove (getSection b s) fi ti) with updatedAt := now }

theorem insertIdx_perm (x : BudgetItem) :
    ∀ (n : ℕ) (l : List BudgetItem), n ≤ l.length → (l.insertIdx n x).Perm (x :: l)
  | 0, l, _ => by simp
  | n + 1, [], h => by simp at h
  | n + 1, a :: t, h => by
    rw [List.insertIdx_succ_cons]
    exact ((insertIdx_perm x n t (Nat.le_of_succ_le_succ h)).cons a).trans
      (List.Perm.swap x a t)

theorem cons_eraseIdx_perm :
    ∀ (l : List BudgetItem) (k : ℕ) (h : k < l.length),
      l.Perm (l.get ⟨k, h⟩ :: l.eraseIdx k)
  | a :: t, 0, _ => by simp [List.eraseIdx]
  | a :: t, k + 1, h => by
    have ih := cons_eraseIdx_perm t k (by simpa using h)
    simpa [List.eraseIdx] using (ih.cons a).trans (List.Perm.swap _ a _)

theorem spliceMove_perm (l : List BudgetItem) (fi ti : ℕ) (hf : fi < l.length) :
    (spliceMove l fi ti).Perm l := by
  unfold spliceMove
  rw [List.getElem?_eq_getElem hf]
  exact (insertIdx_perm _ _ _ (min_le_right _ _)).trans
    ((cons_eraseIdx_perm l fi hf).symm)

theorem getSection_set_same (b : Budget) (s : Sect) (l : List BudgetItem) :
    getSection (setSection b s l) s = l := by
  cases s <;> rfl

theorem getSection_set_diff (b : Budget) (s t : Sect) (l : List BudgetItem)
    (h : ¬ t = s) : getSection (setSection b s l) t = getSection b t := by
  cases s <;> cases t <;> first | rfl | exact absurd rfl h

-- Claim C10 ------------------------------------------------------------------

/-- C10: for in-range indices, reorderItems permutes the chosen section
(exactly the same multiset of items, ids included), leaves every other
section unchanged, and leaves every budget field except updatedAt unchanged. -/
theorem reorder_spec (b : Budget) (s : Sect) (fi ti now : ℕ)
    (hf : fi < (getSection b s).length) (ht : ti < (getSection b s).length) :
    (getSection (reorderItems b s fi ti now) s).Perm (getSection b s) ∧
      (∀ t : Sect, ¬ t = s →
        getSection (reorderItems b s fi ti now) t = getSection b t) ∧
      (reorderItems b s fi ti now).id = b.id ∧
      (reorderItems b s fi ti now).name = b.name ∧
      (reorderItems b s fi ti now).nonLiquidDiscount = b.nonLiquidDiscount ∧
      (reorderItems b s fi ti now).lastPriceRefresh = b.lastPriceRefresh ∧
      (reorderItems b s fi ti now).createdAt = b.createdAt ∧
      (reorderItems b s fi ti now).updatedAt = now := by
  have hsec : ∀ t : Sect, getSection (reorderItems b s fi ti now) t =
      getSection (setSection b s (spliceMove (getSection b s) fi ti)) t := by
    intro t
    cases s <;> cases t <;> rfl
  refine ⟨?_, ?_, ?_, ?_, ?_, ?_, ?_, ?_⟩
  · rw [hsec, getSection_set_same]
    exact spliceMove_perm _ _ _ hf
  · intro t htne
    rw [hsec, getSection_set_diff _ _ _ _ htne]
  all_goals cases s <;> rfl

/-- C10 witness: reorder_spec applied to the two-liability budget, moving
index 0 to index 1. -/
theorem reorder_spec_witness :
    0 < (getSection cRoundBase .liabilities).length ∧
      1 < (getSection cRoundBase .liabilities).length ∧
      (reorderItems cRoundBase .liabilities 0 1 5).updatedAt = 5 :=
  ⟨by decide, by decide,
    (reorder_spec cRoundBase .liabilities 0 1 5 (by decide) (by decide)).2.2.2.2.2.2.2⟩

-- Ids are never removed by reconciliation (infrastructure for C7) -------------

/-- idsOf projects the id of every item, in order. -/
def idsOf (l : List BudgetItem) : List String := l.map (fun i => i.id)

/-- extIds l m: m carries the ids of l, in order, possibly followed by ids of
appended items (reconciliation only mutates in place or appends). -/
def extIds (l m : List BudgetItem) : Prop := ∃ r, idsOf m = idsOf l ++ r

theorem extIds_refl (l : List BudgetItem) : extIds l l := ⟨[], by simp⟩

theorem extIds_trans {a b c : List BudgetItem} (h1 : extIds a b) (h2 : extIds b c) :
    extIds a c := by
  obtain ⟨r1, hr1⟩ := h1
  obtain ⟨r2, hr2⟩ := h2
  exact ⟨r1 ++ r2, by rw [hr2, hr1, List.append_assoc]⟩

theorem extIds_append (l xs : List BudgetItem) : extIds l (l ++ xs) :=
  ⟨idsOf xs, by simp [idsOf]⟩

theorem idsOf_map (f : BudgetItem → BudgetItem) (hf : ∀ i, (f i).id = i.id)
    (l : List BudgetItem) : idsOf (l.map f) = idsOf l := by
  simp [idsOf, List.map_map, Function.comp, hf]

theorem extIds_map (f : BudgetItem → BudgetItem) (hf : ∀ i, (f i).id = i.id)
    (l : List BudgetItem) : extIds l (l.map f) :=
  ⟨[], by rw [idsOf_map f hf]; simp⟩

theorem idsOf_updateFirst (pred : BudgetItem → Bool) (f : BudgetItem → BudgetItem)
    (hf : ∀ i, (f i).id = i.id) :
    ∀ l : List BudgetItem, idsOf (updateFirst pred f l) = idsOf l
  | [] => rfl
  | a :: t => by
    unfold updateFirst
    split
    · simp [idsOf, hf]
    · simp only [idsOf, List.map_cons]
      rw [show List.map (fun i => i.id) (updateFirst pred f t) = idsOf (updateFirst pred f t) from rfl,
        idsOf_updateFirst pred f hf t]
      rfl

theorem id_overwriteAmount (a : ℚ) (i : BudgetItem) : (overwriteAmount a i).id = i.id := rfl

theorem extIds_findOrAdd (arr : List BudgetItem) (n : String) (a : ℚ) (freq : Frequency) :
    extIds arr (findOrAdd arr n a freq) := by
  unfold findOrAdd
  dsimp only
  by_cases h : arr.any (fun i => strLower i.name == strLower n) = true
  · rw [if_pos h]
    exact ⟨[], by rw [idsOf_updateFirst _ _ (id_overwriteAmount a)]; simp⟩
  · rw [if_neg h]
    exact extIds_append _ _

theorem extIds_upsert (arr : List BudgetItem) (n : String) (a : ℚ) (freq : Frequency) :
    extIds arr (upsert arr n a freq) := by
  unfold upsert
  dsimp only
  by_cases h : arr.any
      (fun i => strIncl (strLower i.name) (strLower n) || strIncl (strLower n) (strLower i.name)) = true
  · rw [if_pos h]
    exact ⟨[], by rw [idsOf_updateFirst _ _ (id_overwriteAmount a)]; simp⟩
  · rw [if_neg h]
    exact extIds_append _ _

theorem extIds_upsertIf (x : Option ℚ) (arr : List BudgetItem) (n : String)
    (freq : Frequency) : extIds arr (upsertIf x arr n freq) := by
  unfold upsertIf
  match x with
  | none => exact extIds_refl _
  | some v =>
    dsimp only
    by_cases hv : v = 0
    · rw [if_pos hv]
      exact extIds_refl _
    · rw [if_neg hv]
      exact extIds_upsert _ _ _ _

theorem extIds_foldl (g : List BudgetItem → String → List BudgetItem)
    (hg : ∀ arr t, extIds arr (g arr t)) :
    ∀ (ts : List String) (arr : List BudgetItem), extIds arr (ts.foldl g arr)
  | [], arr => extIds_refl arr
  | t :: ts, arr => by
    rw [List.foldl_cons]
    exact extIds_trans (hg arr t) (extIds_foldl g hg ts (g arr t))

theorem extIds_addCryptoTicker (arr : List BudgetItem) (t : String) :
    extIds arr (addCryptoTicker arr t) := by
  unfold addCryptoTicker
  split
  · exact extIds_refl _
  · exact extIds_append _ _

theorem extIds_addStockTicker (arr : List BudgetItem) (t : String) :
    extIds arr (addStockTicker arr t) := by
  unfold addStockTicker
  split
  · exact extIds_refl _
  · exact extIds_append _ _

/-- budgetExt b c: every section of c starts with the ids of the same section
of b, in order. -/
def budgetExt (b c : Budget) : Prop :=
  ∀ s : Sect, extIds (getSection b s) (getSection c s)

theorem budgetExt_refl (b : Budget) : budgetExt b b := fun _ => extIds_refl _

theorem budgetExt_trans {a b c : Budget} (h1 : budgetExt a b) (h2 : budgetExt b c) :
    budgetExt a c := fun s => extIds_trans (h1 s) (h2 s)

theorem budgetExt_income (b : Budget) (l : List BudgetItem) (h : extIds b.income l) :
    budgetExt b { b with income := l } := by
  intro s
  cases s
  case income => exact h
  all_goals exact extIds_refl _

theorem budgetExt_expenses (b : Budget) (l : List BudgetItem) (h : extIds b.expenses l) :
    budgetExt b { b with expenses := l } := by
  intro s
  cases s
  case expenses => exact h
  all_goals exact extIds_refl _

theorem budgetExt_assets (b : Budget) (l : List BudgetItem) (h : extIds b.assets l) :
    budgetExt b { b with assets := l } := by
  intro s
  cases s
  case assets => exact h
  all_goals exact extIds_refl _

theorem budgetExt_nonLiquid (b : Budget) (l : List BudgetItem)
    (h : extIds b.nonLiquidAssets l) : budgetExt b { b with nonLiquidAssets := l } := by
  intro s
  cases s
  case nonLiquidAssets => exact h
  all_goals exact extIds_refl _

theorem budgetExt_retirement (b : Budget) (l : List BudgetItem)
    (h : extIds b.retirement l) : budgetExt b { b with retirement := l } := by
  intro s
  cases s
  case retirement => exact h
  all_goals exact extIds_refl _

theorem budgetExt_liabilities (b : Budget) (l : List BudgetItem)
    (h : extIds b.liabilities l) : budgetExt b { b with liabilities := l } := by
  intro s
  cases s
  case liabilities => exact h
  all_goals exact extIds_refl _

theorem budgetExt_stepName (p : Patch) (b : Budget) : budgetExt b (stepName p b) := by
  unfold stepName
  split
  · intro s; cases s <;> exact extIds_refl _
  · exact budgetExt_refl b

theorem budgetExt_stepUnemployed (p : Patch) (b : Budget) :
    budgetExt b (stepUnemployed p b) := by
  unfold stepUnemployed
  split
  · dsimp only
    split
    · split
      · exact budgetExt_income _ _ (extIds_map (overwriteAmount 0) (fun i => rfl) _)
      · exact budgetExt_trans
          (budgetExt_income _ _ (extIds_map (overwriteAmount 0) (fun i => rfl) _))
          (budgetExt_assets _ _ (extIds_findOrAdd _ _ _ _))
    · split
      · exact budgetExt_refl b
      · exact budgetExt_assets _ _ (extIds_findOrAdd _ _ _ _)
  · exact budgetExt_refl b

theorem budgetExt_stepHomeowner (p : Patch) (b : Budget) :
    budgetExt b (stepHomeowner p b) := by
  unfold stepHomeowner
  split
  · exact budgetExt_expenses _ _
      (extIds_map _ (fun i => by split <;> rfl) _)
  · exact budgetExt_refl b

theorem budgetExt_stepChildren (p : Patch) (b : Budget) :
    budgetExt b (stepChildren p b) := by
  unfold stepChildren
  cases hp : p.num_children
  · exact budgetExt_refl b
  · dsimp only
    split
    · split
      · exact budgetExt_refl b
      · exact budgetExt_expenses _ _ (extIds_findOrAdd _ _ _ _)
    · exact budgetExt_refl b

theorem budgetExt_stepIncomeFields (p : Patch) (b : Budget) :
    budgetExt b (stepIncomeFields p b) := by
  unfold stepIncomeFields
  dsimp only
  refine budgetExt_income _ _ ?_
  repeat'
    first
    | exact extIds_refl _
    | refine extIds_trans ?_ (extIds_upsertIf _ _ _ _)

theorem budgetExt_stepIncomeScale (p : Patch) (b : Budget) :
    budgetExt b (stepIncomeScale p b) := by
  unfold stepIncomeScale
  cases heff : effectiveMonthlyIncome p
  · exact budgetExt_refl b
  · dsimp only
    split
    · exact budgetExt_refl b
    · split
      · exact budgetExt_refl b
      · split
        · exact budgetExt_income _ _ (extIds_map (scaleWithComputeValues _) (fun i => rfl) _)
        · split
          · refine budgetExt_income _ _ ?_
            have h0 : b.income = [] := List.length_eq_zero.mp (by assumption)
            rw [h0]
            exact extIds_append [] _
          · exact budgetExt_refl b

theorem budgetExt_stepExpenseFields (p : Patch) (b : Budget) :
    budgetExt b (stepExpenseFields p b) := by
  unfold stepExpenseFields
  dsimp only
  refine budgetExt_expenses _ _ ?_
  repeat'
    first
    | exact extIds_refl _
    | refine extIds_trans ?_ (extIds_upsertIf _ _ _ _)

theorem budgetExt_stepExpenseScale (p : Patch) (b : Budget) :
    budgetExt b (stepExpenseScale p b) := by
  unfold stepExpenseScale
  cases hp : p.monthly_expenses
  · exact budgetExt_refl b
  · dsimp only
    split
    · exact budgetExt_refl b
    · split
      · exact budgetExt_refl b
      · split
        · exact budgetExt_expenses _ _ (extIds_map (scaleWithComputeValues _) (fun i => rfl) _)
        · exact budgetExt_refl b

theorem budgetExt_stepAssetFields (p : Patch) (b : Budget) :
    budgetExt b (stepAssetFields p b) := by
  unfold stepAssetFields
  dsimp only
  refine budgetExt_assets _ _ ?_
  repeat'
    first
    | exact extIds_refl _
    | refine extIds_trans ?_ (extIds_upsertIf _ _ _ _)

theorem budgetExt_stepCrypto (p : Patch) (b : Budget) : budgetExt b (stepCrypto p b) := by
  unfold stepCrypto
  split
  · exact budgetExt_assets _ _
      (extIds_foldl addCryptoTicker extIds_addCryptoTicker _ _)
  · split
    · split
      · exact budgetExt_assets _ _ (extIds_append _ _)
      · split
        · exact budgetExt_assets _ _
            (extIds_map _ (fun a => by split <;> rfl) _)
        · exact budgetExt_refl b
    · exact budgetExt_refl b

theorem budgetExt_stepStocks (p : Patch) (b : Budget) : budgetExt b (stepStocks p b) := by
  unfold stepStocks
  split
  · exact budgetExt_assets _ _
      (extIds_foldl addStockTicker extIds_addStockTicker _ _)
  · split
    · split
      · exact budgetExt_refl b
      · exact budgetExt_assets _ _ (extIds_append _ _)
    · exact budgetExt_refl b

theorem budgetExt_stepLiquidScale (p : Patch) (b : Budget) :
    budgetExt b (stepLiquidScale p b) := by
  unfold stepLiquidScale
  cases hp : p.liquid_assets
  · exact budgetExt_refl b
  · dsimp only
    split
    · exact budgetExt_refl b
    · split
      · exact budgetExt_refl b
      · split
        · exact budgetExt_assets _ _
            (extIds_map _ (fun i => by split <;> rfl) _)
        · exact budgetExt_refl b

theorem budgetExt_stepNonLiquidFields (p : Patch) (b : Budget) :
    budgetExt b (stepNonLiquidFields p b) := by
  unfold stepNonLiquidFields
  dsimp only
  refine budgetExt_nonLiquid _ _ ?_
  repeat'
    first
    | exact extIds_refl _
    | refine extIds_trans ?_ (extIds_upsertIf _ _ _ _)

theorem budgetExt_stepNonLiquidScale (p : Patch) (b : Budget) :
    budgetExt b (stepNonLiquidScale p b) := by
  unfold stepNonLiquidScale
  cases hp : p.nonliquid_assets
  · exact budgetExt_refl b
  · dsimp only
    split
    · exact budgetExt_refl b
    · split
      · exact budgetExt_refl b
      · split
        · exact budgetExt_nonLiquid _ _ (extIds_map (scaleAssetStyle _) (fun i => rfl) _)
        · exact budgetExt_refl b

theorem budgetExt_stepDiscount (p : Patch) (b : Budget) :
    budgetExt b (stepDiscount p b) := by
  unfold stepDiscount
  cases hp : p.nonliquid_discount
  · exact budgetExt_refl b
  · intro s; cases s <;> exact extIds_refl _

theorem budgetExt_stepRetirementFields (p : Patch) (b : Budget) :
    budgetExt b (stepRetirementFields p b) := by
  unfold stepRetirementFields
  dsimp only
  refine budgetExt_retirement _ _ ?_
  repeat'
    first
    | exact extIds_refl _
    | refine extIds_trans ?_ (extIds_upsertIf _ _ _ _)

theorem budgetExt_stepRetirementScale (p : Patch) (b : Budget) :
    budgetExt b (stepRetirementScale p b) := by
  unfold stepRetirementScale
  cases hp : p.retirement_savings
  · exact budgetExt_refl b
  · dsimp only
    split
    · exact budgetExt_refl b
    · split
      · exact budgetExt_refl b
      · split
        · exact budgetExt_retirement _ _ (extIds_map (scaleAssetStyle _) (fun i => rfl) _)
        · split
          · refine budgetExt_retirement _ _ ?_
            have h0 : b.retirement = [] := List.length_eq_zero.mp (by assumption)
            rw [h0]
            exact extIds_append [] _
          · exact budgetExt_refl b

theorem budgetExt_stepLiabilityFields (p : Patch) (b : Budget) :
    budgetExt b (stepLiabilityFields p b) := by
  unfold stepLiabilityFields
  dsimp only
  refine budgetExt_liabilities _ _ ?_
  repeat'
    first
    | exact extIds_refl _
    | refine extIds_trans ?_ (extIds_upsertIf _ _ _ _)

theorem budgetExt_stepLiabilityScale (p : Patch) (b : Budget) :
    budgetExt b (stepLiabilityScale p b) := by
  unfold stepLiabilityScale
  cases hp : p.liabilities
  · exact budgetExt_refl b
  · dsimp only
    split
    · exact budgetExt_refl b
    · split
      · exact budgetExt_refl b
      · split
        · exact budgetExt_liabilities _ _ (extIds_map (scaleWithComputeValues _) (fun i => rfl) _)
        · split
          · refine budgetExt_liabilities _ _ ?_
            have h0 : b.liabilities = [] := List.length_eq_zero.mp (by assumption)
            rw [h0]
            exact extIds_append [] _
          · exact budgetExt_refl b

/-- budgetExt_reconcile: reconciliation only mutates items in place or
appends new ones, so every section of the result starts with the ids of the
base section, in order. -/
theorem budgetExt_reconcile (base : Budget) (p : Patch) :
    budgetExt base (reconcile base p) := by
  have h17 : budgetExt base (preLiabilitySteps p base) := by
    unfold preLiabilitySteps
    apply budgetExt_trans (budgetExt_stepName p _)
    apply budgetExt_trans (budgetExt_stepUnemployed p _)
    apply budgetExt_trans (budgetExt_stepHomeowner p _)
    apply budgetExt_trans (budgetExt_stepChildren p _)
    apply budgetExt_trans (budgetExt_stepIncomeFields p _)
    apply budgetExt_trans (budgetExt_stepIncomeScale p _)
    apply budgetExt_trans (budgetExt_stepExpenseFields p _)
    apply budgetExt_trans (budgetExt_stepExpenseScale p _)
    apply budgetExt_trans (budgetExt_stepAssetFields p _)
    apply budgetExt_trans (budgetExt_stepCrypto p _)
    apply budgetExt_trans (budgetExt_stepStocks p _)
    apply budgetExt_trans (budgetExt_stepLiquidScale p _)
    apply budgetExt_trans (budgetExt_stepNonLiquidFields p _)
    apply budgetExt_trans (budgetExt_stepNonLiquidScale p _)
    apply budgetExt_trans (budgetExt_stepDiscount p _)
    apply budgetExt_trans (budgetExt_stepRetirementFields p _)
    exact budgetExt_stepRetirementScale p _
  exact budgetExt_trans h17
    (budgetExt_trans (budgetExt_stepLiabilityFields p _) (budgetExt_stepLiabilityScale p _))

theorem mem_ids_of_extIds {l m : List BudgetItem} (h : extIds l m) {it : BudgetItem}
    (hit : it ∈ l) : it.id ∈ idsOf m := by
  obtain ⟨r, hr⟩ := h
  rw [hr]
  exact List.mem_append_left _ (List.mem_map_of_mem _ hit)

-- Claim C7 -------------------------------------------------------------------

/-- C7: reconciliation never removes a line item — for every base and every
patch, each section of the result starts with exactly the base section's ids
in order (items are only mutated in place or appended), so every base item's
id is still present; and a patch supplying only the single new named field
rent (with no existing expense name loosely matching "Rent") leaves the
whole budget unchanged except for appending the one new expense item: all
pre-existing items of every section are byte-identical, as are all other
budget fields. -/
theorem reconcile_non_destructive (base : Budget) (p : Patch) (r : ℚ) (hr : ¬ r = 0)
    (hnm : base.expenses.any (fun i =>
      strIncl (strLower i.name) (strLower "Rent") ||
        strIncl (strLower "Rent") (strLower i.name)) = false) :
    (∀ s : Sect, ∃ rest, idsOf (getSection (reconcile base p) s) =
        idsOf (getSection base s) ++ rest) ∧
      (∀ s : Sect, ∀ it ∈ getSection base s,
        it.id ∈ idsOf (getSection (reconcile base p) s)) ∧
      reconcile base { rent := some r } =
        { base with expenses := base.expenses ++ [mi "Rent" r .monthly] } := by
  refine ⟨fun s => budgetExt_reconcile base p s, ?_, ?_⟩
  · intro s it hit
    exact mem_ids_of_extIds (budgetExt_reconcile base p s) hit
  · simp [reconcile, preLiabilitySteps, stepName, stepUnemployed, stepHomeowner, stepChildren,
      stepIncomeFields, stepIncomeScale, stepExpenseFields, stepExpenseScale, stepAssetFields,
      stepCrypto, stepStocks, stepLiquidScale, stepNonLiquidFields, stepNonLiquidScale,
      stepDiscount, stepRetirementFields, stepRetirementScale, stepLiabilityFields,
      stepLiabilityScale, truthyS, truthyB, truthyQ, effectiveMonthlyIncome, annualPart,
      upsertIf, upsert, hr, hnm]

/-- C7 witness: reconcile_non_destructive applied to the empty budget with a
new rent field of 1500. -/
theorem reconcile_non_destructive_witness :
    (¬ (1500 : ℚ) = 0) ∧
      reconcile (emptyBudget 0) { rent := some 1500 } =
        { emptyBudget 0 with expenses := [mi "Rent" 1500 .monthly] } :=
  ⟨by norm_num,
    (reconcile_non_destructive (emptyBudget 0) { rent := some 1500 } 1500
      (by norm_num) rfl).2.2⟩

-- Derived-field invariant infrastructure (C2) ---------------------------------

/-- itemsOk: every item of the list satisfies the derived-field invariant. -/
def itemsOk (l : List BudgetItem) : Prop := ∀ it ∈ l, itemConsistent it

/-- allOneTime: every item of the list has OneTime frequency (true of the
three asset-style sections in every state the app itself builds). -/
def allOneTime (l : List BudgetItem) : Prop := ∀ it ∈ l, it.frequency = .one_time

/-- Inv: every item of every section is consistent, and the three asset-style
sections hold only OneTime items. -/
def Inv (b : Budget) : Prop :=
  itemsOk b.income ∧ itemsOk b.expenses ∧ itemsOk b.assets ∧
    itemsOk b.nonLiquidAssets ∧ itemsOk b.retirement ∧ itemsOk b.liabilities ∧
    allOneTime b.assets ∧ allOneTime b.nonLiquidAssets ∧ allOneTime b.retirement

theorem itemConsistent_mia (n : String) (a : ℚ) : itemConsistent (mia n a) := ⟨rfl, rfl⟩

theorem itemConsistent_mi_monthly (n : String) (a : ℚ) :
    itemConsistent (mi n a .monthly) := ⟨rfl, rfl⟩

theorem itemConsistent_overwriteAmount (a : ℚ) (i : BudgetItem) :
    itemConsistent (overwriteAmount a i) := ⟨rfl, rfl⟩

theorem itemConsistent_scaleCV (r : ℚ) (i : BudgetItem) :
    itemConsistent (scaleWithComputeValues r i) := ⟨rfl, rfl⟩

theorem itemConsistent_scaleAsset (r : ℚ) (i : BudgetItem)
    (h : i.frequency = .one_time) : itemConsistent (scaleAssetStyle r i) := by
  unfold itemConsistent
  have hf : (scaleAssetStyle r i).frequency = Frequency.one_time := h
  rw [hf]
  exact ⟨rfl, rfl⟩

theorem itemConsistent_setAmountTotal (a : BudgetItem) (v : ℚ)
    (ha : itemConsistent a) (hot : a.frequency = .one_time) :
    itemConsistent { a with amount := v, totalValue := v } := by
  have hm : a.monthlyValue = 0 := by
    have h2 := ha.2
    rw [hot] at h2
    simpa [computeValues] using h2
  constructor
  · show v = (computeValues v a.frequency).totalValue
    rw [hot]
    rfl
  · show a.monthlyValue = (computeValues v a.frequency).monthlyValue
    rw [hot, hm]
    rfl

theorem itemsOk_nil : itemsOk [] := fun _ h => absurd h (List.not_mem_nil _)

theorem itemsOk_append {l m : List BudgetItem} (h1 : itemsOk l) (h2 : itemsOk m) :
    itemsOk (l ++ m) := fun it hit =>
  (List.mem_append.mp hit).elim (h1 it) (h2 it)

theorem itemsOk_map {l : List BudgetItem} {f : BudgetItem → BudgetItem}
    (hf : ∀ i ∈ l, itemConsistent (f i)) : itemsOk (l.map f) := by
  intro it hit
  obtain ⟨i, hi, rfl⟩ := List.mem_map.mp hit
  exact hf i hi

theorem itemsOk_updateFirst {pred : BudgetItem → Bool} {f : BudgetItem → BudgetItem} :
    ∀ {l : List BudgetItem}, itemsOk l → (∀ i ∈ l, itemConsistent (f i)) →
      itemsOk (updateFirst pred f l)
  | [], _, _ => itemsOk_nil
  | a :: t, hl, hf => by
    unfold updateFirst
    split
    · intro it hit
      rcases List.mem_cons.mp hit with h | h
      · exact h ▸ hf a (List.mem_cons_self a t)
      · exact hl it (List.mem_cons_of_mem a h)
    · intro it hit
      rcases List.mem_cons.mp hit with h | h
      · exact h ▸ hl a (List.mem_cons_self a t)
      · exact itemsOk_updateFirst (fun i hi => hl i (List.mem_cons_of_mem a hi))
          (fun i hi => hf i (List.mem_cons_of_mem a hi)) it h

theorem allOneTime_nil : allOneTime [] := fun _ h => absurd h (List.not_mem_nil _)

theorem allOneTime_append {l m : List BudgetItem} (h1 : allOneTime l)
    (h2 : allOneTime m) : allOneTime (l ++ m) := fun it hit =>
  (List.mem_append.mp hit).elim (h1 it) (h2 it)

theorem allOneTime_map {l : List BudgetItem} {f : BudgetItem → BudgetItem}
    (hf : ∀ i ∈ l, (f i).frequency = i.frequency) (hl : allOneTime l) :
    allOneTime (l.map f) := by
  intro it hit
  obtain ⟨i, hi, rfl⟩ := List.mem_map.mp hit
  rw [hf i hi]
  exact hl i hi

theorem allOneTime_updateFirst {pred : BudgetItem → Bool} (f : BudgetItem → BudgetItem)
    (hf : ∀ i, (f i).frequency = i.frequency) :
    ∀ {l : List BudgetItem}, allOneTime l → allOneTime (updateFirst pred f l)
  | [], _ => allOneTime_nil
  | a :: t, hl => by
    unfold updateFirst
    split
    · intro it hit
      rcases List.mem_cons.mp hit with h | h
      · rw [h, hf a]
        exact hl a (List.mem_cons_self a t)
      · exact hl it (List.mem_cons_of_mem a h)
    · intro it hit
      rcases List.mem_cons.mp hit with h | h
      · exact h ▸ hl a (List.mem_cons_self a t)
      · exact allOneTime_updateFirst f hf
          (fun i hi => hl i (List.mem_cons_of_mem a hi)) it h

theorem itemsOk_singleton {it : BudgetItem} (h : itemConsistent it) : itemsOk [it] := by
  intro x hx
  rw [List.mem_singleton.mp hx]
  exact h

theorem allOneTime_singleton {it : BudgetItem} (h : it.frequency = .one_time) :
    allOneTime [it] := by
  intro x hx
  rw [List.mem_singleton.mp hx]
  exact h

theorem itemsOk_findOrAdd {arr : List BudgetItem} (n : String) (a : ℚ)
    {freq : Frequency} (hl : itemsOk arr) (hfreq : ¬ freq = .yearly) :
    itemsOk (findOrAdd arr n a freq) := by
  unfold findOrAdd
  dsimp only
  split
  · exact itemsOk_updateFirst hl (fun i _ => itemConsistent_overwriteAmount a i)
  · refine itemsOk_append hl (itemsOk_singleton ?_)
    cases freq with
    | monthly => exact itemConsistent_mi_monthly n a
    | yearly => exact absurd rfl hfreq
    | one_time => exact itemConsistent_mia n a

theorem allOneTime_findOrAdd {arr : List BudgetItem} (n : String) (a : ℚ)
    (hl : allOneTime arr) : allOneTime (findOrAdd arr n a .one_time) := by
  unfold findOrAdd
  dsimp only
  split
  · exact allOneTime_updateFirst (overwriteAmount a) (fun i => rfl) hl
  · exact allOneTime_append hl (allOneTime_singleton rfl)

theorem itemsOk_upsert {arr : List BudgetItem} (n : String) (a : ℚ)
    {freq : Frequency} (hl : itemsOk arr) (hfreq : ¬ freq = .yearly) :
    itemsOk (upsert arr n a freq) := by
  unfold upsert
  dsimp only
  split
  · exact itemsOk_updateFirst hl (fun i _ => itemConsistent_overwriteAmount a i)
  · refine itemsOk_append hl (itemsOk_singleton ?_)
    cases freq with
    | monthly => exact itemConsistent_mi_monthly n a
    | yearly => exact absurd rfl hfreq
    | one_time => exact itemConsistent_mia n a

theorem allOneTime_upsert {arr : List BudgetItem} (n : String) (a : ℚ)
    (hl : allOneTime arr) : allOneTime (upsert arr n a .one_time) := by
  unfold upsert
  dsimp only
  split
  · exact allOneTime_updateFirst (overwriteAmount a) (fun i => rfl) hl
  · exact allOneTime_append hl (allOneTime_singleton rfl)

theorem itemsOk_upsertIf {arr : List BudgetItem} (x : Option ℚ) (n : String)
    {freq : Frequency} (hl : itemsOk arr) (hfreq : ¬ freq = .yearly) :
    itemsOk (upsertIf x arr n freq) := by
  unfold upsertIf
  match x with
  | none => exact hl
  | some v =>
    dsimp only
    split
    · exact hl
    · exact itemsOk_upsert n v hl hfreq

theorem allOneTime_upsertIf {arr : List BudgetItem} (x : Option ℚ) (n : String)
    (hl : allOneTime arr) : allOneTime (upsertIf x arr n .one_time) := by
  unfold upsertIf
  match x with
  | none => exact hl
  | some v =>
    dsimp only
    split
    · exact hl
    · exact allOneTime_upsert n v hl

theorem foldl_pres (P : List BudgetItem → Prop) (g : List BudgetItem → String → List BudgetItem)
    (hg : ∀ arr t, P arr → P (g arr t)) :
    ∀ (ts : List String) (arr : List BudgetItem), P arr → P (ts.foldl g arr)
  | [], _, h => h
  | t :: ts, arr, h => by
    rw [List.foldl_cons]
    exact foldl_pres P g hg ts (g arr t) (hg arr t h)

theorem itemsOk_addCryptoTicker (arr : List BudgetItem) (t : String)
    (hl : itemsOk arr) : itemsOk (addCryptoTicker arr t) := by
  unfold addCryptoTicker
  split
  · exact hl
  · exact itemsOk_append hl (itemsOk_singleton ⟨rfl, rfl⟩)

theorem allOneTime_addCryptoTicker (arr : List BudgetItem) (t : String)
    (hl : allOneTime arr) : allOneTime (addCryptoTicker arr t) := by
  unfold addCryptoTicker
  split
  · exact hl
  · exact allOneTime_append hl (allOneTime_singleton rfl)

theorem itemsOk_addStockTicker (arr : List BudgetItem) (t : String)
    (hl : itemsOk arr) : itemsOk (addStockTicker arr t) := by
  unfold addStockTicker
  split
  · exact hl
  · exact itemsOk_append hl (itemsOk_singleton ⟨rfl, rfl⟩)

theorem allOneTime_addStockTicker (arr : List BudgetItem) (t : String)
    (hl : allOneTime arr) : allOneTime (addStockTicker arr t) := by
  unfold addStockTicker
  split
  · exact hl
  · exact allOneTime_append hl (allOneTime_singleton rfl)

theorem Inv_setIncome {b : Budget} {l : List BudgetItem} (h : Inv b)
    (hl : itemsOk l) : Inv { b with income := l } := by
  obtain ⟨_, h2, h3, h4, h5, h6, h7, h8, h9⟩ := h
  exact ⟨hl, h2, h3, h4, h5, h6, h7, h8, h9⟩

theorem Inv_setExpenses {b : Budget} {l : List BudgetItem} (h : Inv b)
    (hl : itemsOk l) : Inv { b with expenses := l } := by
  obtain ⟨h1, _, h3, h4, h5, h6, h7, h8, h9⟩ := h
  exact ⟨h1, hl, h3, h4, h5, h6, h7, h8, h9⟩

theorem Inv_setAssets {b : Budget} {l : List BudgetItem} (h : Inv b)
    (hl : itemsOk l) (ho : allOneTime l) : Inv { b with assets := l } := by
  obtain ⟨h1, h2, _, h4, h5, h6, _, h8, h9⟩ := h
  exact ⟨h1, h2, hl, h4, h5, h6, ho, h8, h9⟩

theorem Inv_setNonLiquid {b : Budget} {l : List BudgetItem} (h : Inv b)
    (hl : itemsOk l) (ho : allOneTime l) : Inv { b with nonLiquidAssets := l } := by
  obtain ⟨h1, h2, h3, _, h5, h6, h7, _, h9⟩ := h
  exact ⟨h1, h2, h3, hl, h5, h6, h7, ho, h9⟩

theorem Inv_setRetirement {b : Budget} {l : List BudgetItem} (h : Inv b)
    (hl : itemsOk l) (ho : allOneTime l) : Inv { b with retirement := l } := by
  obtain ⟨h1, h2, h3, h4, _, h6, h7, h8, _⟩ := h
  exact ⟨h1, h2, h3, h4, hl, h6, h7, h8, ho⟩

theorem Inv_setLiabilities {b : Budget} {l : List BudgetItem} (h : Inv b)
    (hl : itemsOk l) : Inv { b with liabilities := l } := by
  obtain ⟨h1, h2, h3, h4, h5, _, h7, h8, h9⟩ := h
  exact ⟨h1, h2, h3, h4, h5, hl, h7, h8, h9⟩

theorem Inv_stepName (p : Patch) (b : Budget) (h : Inv b) : Inv (stepName p b) := by
  unfold stepName
  split
  · exact h
  · exact h

theorem Inv_stepUnemployed (p : Patch) (b : Budget) (h : Inv b) :
    Inv (stepUnemployed p b) := by
  unfold stepUnemployed
  split
  · dsimp only
    split
    · split
      · exact Inv_setIncome h
          (itemsOk_map (fun i _ => itemConsistent_overwriteAmount 0 i))
      · exact Inv_setAssets
          (Inv_setIncome h (itemsOk_map (fun i _ => itemConsistent_overwriteAmount 0 i)))
          (itemsOk_findOrAdd _ _ h.2.2.1 (by decide))
          (allOneTime_findOrAdd _ _ h.2.2.2.2.2.2.1)
    · split
      · exact h
      · exact Inv_setAssets h (itemsOk_findOrAdd _ _ h.2.2.1 (by decide))
          (allOneTime_findOrAdd _ _ h.2.2.2.2.2.2.1)
  · exact h

theorem Inv_stepHomeowner (p : Patch) (b : Budget) (h : Inv b) :
    Inv (stepHomeowner p b) := by
  unfold stepHomeowner
  split
  · exact Inv_setExpenses h
      (itemsOk_map (fun i hi => by split <;> exact h.2.1 i hi))
  · exact h

theorem Inv_stepChildren (p : Patch) (b : Budget) (h : Inv b) :
    Inv (stepChildren p b) := by
  unfold stepChildren
  cases hp : p.num_children
  · exact h
  · dsimp only
    split
    · split
      · exact h
      · exact Inv_setExpenses h (itemsOk_findOrAdd _ _ h.2.1 (by decide))
    · exact h

theorem Inv_stepIncomeFields (p : Patch) (b : Budget) (h : Inv b) :
    Inv (stepIncomeFields p b) := by
  unfold stepIncomeFields
  dsimp only
  refine Inv_setIncome h ?_
  repeat'
    first
    | exact h.1
    | refine itemsOk_upsertIf _ _ ?_ (by decide)

theorem Inv_stepIncomeScale (p : Patch) (b : Budget) (h : Inv b) :
    Inv (stepIncomeScale p b) := by
  unfold stepIncomeScale
  cases heff : effectiveMonthlyIncome p
  · exact h
  · dsimp only
    split
    · exact h
    · split
      · exact h
      · split
        · exact Inv_setIncome h (itemsOk_map (fun i _ => itemConsistent_scaleCV _ i))
        · split
          · exact Inv_setIncome h (itemsOk_singleton (itemConsistent_mi_monthly _ _))
          · exact h

theorem Inv_stepExpenseFields (p : Patch) (b : Budget) (h : Inv b) :
    Inv (stepExpenseFields p b) := by
  unfold stepExpenseFields
  dsimp only
  refine Inv_setExpenses h ?_
  repeat'
    first
    | exact h.2.1
    | refine itemsOk_upsertIf _ _ ?_ (by decide)

theorem Inv_stepExpenseScale (p : Patch) (b : Budget) (h : Inv b) :
    Inv (stepExpenseScale p b) := by
  unfold stepExpenseScale
  cases hp : p.monthly_expenses
  · exact h
  · dsimp only
    split
    · exact h
    · split
      · exact h
      · split
        · exact Inv_setExpenses h (itemsOk_map (fun i _ => itemConsistent_scaleCV _ i))
        · exact h

theorem Inv_stepAssetFields (p : Patch) (b : Budget) (h : Inv b) :
    Inv (stepAssetFields p b) := by
  unfold stepAssetFields
  dsimp only
  refine Inv_setAssets h ?_ ?_
  · repeat'
      first
      | exact h.2.2.1
      | refine itemsOk_upsertIf _ _ ?_ (by decide)
  · repeat'
      first
      | exact h.2.2.2.2.2.2.1
      | refine allOneTime_upsertIf _ _ ?_

theorem Inv_stepCrypto (p : Patch) (b : Budget) (h : Inv b) : Inv (stepCrypto p b) := by
  unfold stepCrypto
  split
  · exact Inv_setAssets h
      (foldl_pres itemsOk addCryptoTicker itemsOk_addCryptoTicker _ _ h.2.2.1)
      (foldl_pres allOneTime addCryptoTicker allOneTime_addCryptoTicker _ _ h.2.2.2.2.2.2.1)
  · split
    · split
      · exact Inv_setAssets h
          (itemsOk_append h.2.2.1 (itemsOk_singleton ⟨rfl, rfl⟩))
          (allOneTime_append h.2.2.2.2.2.2.1 (allOneTime_singleton rfl))
      · split
        · refine Inv_setAssets h (itemsOk_map (fun a ha => ?_))
            (allOneTime_map (fun a ha => by split <;> rfl) h.2.2.2.2.2.2.1)
          split
          · exact itemConsistent_setAmountTotal a _ (h.2.2.1 a ha) (h.2.2.2.2.2.2.1 a ha)
          · exact h.2.2.1 a ha
        · exact h
    · exact h

theorem Inv_stepStocks (p : Patch) (b : Budget) (h : Inv b) : Inv (stepStocks p b) := by
  unfold stepStocks
  split
  · exact Inv_setAssets h
      (foldl_pres itemsOk addStockTicker itemsOk_addStockTicker _ _ h.2.2.1)
      (foldl_pres allOneTime addStockTicker allOneTime_addStockTicker _ _ h.2.2.2.2.2.2.1)
  · split
    · split
      · exact h
      · exact Inv_setAssets h
          (itemsOk_append h.2.2.1 (itemsOk_singleton ⟨rfl, rfl⟩))
          (allOneTime_append h.2.2.2.2.2.2.1 (allOneTime_singleton rfl))
    · exact h

theorem Inv_stepLiquidScale (p : Patch) (b : Budget) (h : Inv b) :
    Inv (stepLiquidScale p b) := by
  unfold stepLiquidScale
  cases hp : p.liquid_assets
  · exact h
  · dsimp only
    split
    · exact h
    · split
      · exact h
      · split
        · refine Inv_setAssets h (itemsOk_map (fun i hi => ?_))
            (allOneTime_map (fun i hi => by split <;> rfl) h.2.2.2.2.2.2.1)
          split
          · exact h.2.2.1 i hi
          · exact itemConsistent_scaleAsset _ i (h.2.2.2.2.2.2.1 i hi)
        · exact h

theorem Inv_stepNonLiquidFields (p : Patch) (b : Budget) (h : Inv b) :
    Inv (stepNonLiquidFields p b) := by
  unfold stepNonLiquidFields
  dsimp only
  refine Inv_setNonLiquid h ?_ ?_
  · repeat'
      first
      | exact h.2.2.2.1
      | refine itemsOk_upsertIf _ _ ?_ (by decide)
  · repeat'
      first
      | exact h.2.2.2.2.2.2.2.1
      | refine allOneTime_upsertIf _ _ ?_

theorem Inv_stepNonLiquidScale (p : Patch) (b : Budget) (h : Inv b) :
    Inv (stepNonLiquidScale p b) := by
  unfold stepNonLiquidScale
  cases hp : p.nonliquid_assets
  · exact h
  · dsimp only
    split
    · exact h
    · split
      · exact h
      · split
        · exact Inv_setNonLiquid h
            (itemsOk_map (fun i hi => itemConsistent_scaleAsset _ i (h.2.2.2.2.2.2.2.1 i hi)))
            (allOneTime_map (fun i _ => rfl) h.2.2.2.2.2.2.2.1)
        · exact h

theorem Inv_stepDiscount (p : Patch) (b : Budget) (h : Inv b) :
    Inv (stepDiscount p b) := by
  unfold stepDiscount
  cases hp : p.nonliquid_discount
  · exact h
  · exact h

theorem Inv_stepRetirementFields (p : Patch) (b : Budget) (h : Inv b) :
    Inv (stepRetirementFields p b) := by
  unfold stepRetirementFields
  dsimp only
  refine Inv_setRetirement h ?_ ?_
  · repeat'
      first
      | exact h.2.2.2.2.1
      | refine itemsOk_upsertIf _ _ ?_ (by decide)
  · repeat'
      first
      | exact h.2.2.2.2.2.2.2.2
      | refine allOneTime_upsertIf _ _ ?_

theorem Inv_stepRetirementScale (p : Patch) (b : Budget) (h : Inv b) :
    Inv (stepRetirementScale p b) := by
  unfold stepRetirementScale
  cases hp : p.retirement_savings
  · exact h
  · dsimp only
    split
    · exact h
    · split
      · exact h
      · split
        · exact Inv_setRetirement h
            (itemsOk_map (fun i hi => itemConsistent_scaleAsset _ i (h.2.2.2.2.2.2.2.2 i hi)))
            (allOneTime_map (fun i _ => rfl) h.2.2.2.2.2.2.2.2)
        · split
          · exact Inv_setRetirement h (itemsOk_singleton (itemConsistent_mia _ _))
              (allOneTime_singleton rfl)
          · exact h

theorem Inv_stepLiabilityFields (p : Patch) (b : Budget) (h : Inv b) :
    Inv (stepLiabilityFields p b) := by
  unfold stepLiabilityFields
  dsimp only
  refine Inv_setLiabilities h ?_
  repeat'
    first
    | exact h.2.2.2.2.2.1
    | refine itemsOk_upsertIf _ _ ?_ (by decide)

theorem Inv_stepLiabilityScale (p : Patch) (b : Budget) (h : Inv b) :
    Inv (stepLiabilityScale p b) := by
  unfold stepLiabilityScale
  cases hp : p.liabilities
  · exact h
  · dsimp only
    split
    · exact h
    · split
      · exact h
      · split
        · exact Inv_setLiabilities h (itemsOk_map (fun i _ => itemConsistent_scaleCV _ i))
        · split
          · exact Inv_setLiabilities h (itemsOk_singleton (itemConsistent_mia _ _))
          · exact h

/-- Inv_reconcile: every reconciliation path recomputes derived fields, so the
derived-field invariant is preserved by the whole pipeline (given that the
asset-style sections hold only OneTime items, which every path maintains). -/
theorem Inv_reconcile (base : Budget) (p : Patch) (h : Inv base) :
    Inv (reconcile base p) := by
  have h17 : Inv (preLiabilitySteps p base) := by
    unfold preLiabilitySteps
    exact Inv_stepRetirementScale p _ (Inv_stepRetirementFields p _ (Inv_stepDiscount p _
      (Inv_stepNonLiquidScale p _ (Inv_stepNonLiquidFields p _ (Inv_stepLiquidScale p _
        (Inv_stepStocks p _ (Inv_stepCrypto p _ (Inv_stepAssetFields p _
          (Inv_stepExpenseScale p _ (Inv_stepExpenseFields p _ (Inv_stepIncomeScale p _
            (Inv_stepIncomeFields p _ (Inv_stepChildren p _ (Inv_stepHomeowner p _
              (Inv_stepUnemployed p _ (Inv_stepName p _ h))))))))))))))))
  exact Inv_stepLiabilityScale p _ (Inv_stepLiabilityFields p _ h17)

-- Item save (ItemRow.save, MyBudget.tsx lines 601-611) ------------------------

/-- saveItemUpdate models the ItemRow save handler: for priced crypto/stock
drafts with truthy ticker, livePrice and quantity, amount is recomputed as
round2(livePrice * quantity); derived fields are recomputed via computeValues
with the draft's frequency.  (The source's inputMode fallback covers only a
missing frequency, which cannot occur in this model.) -/
def saveItemUpdate (draft : BudgetItem) : BudgetItem :=
  let freq := draft.frequency
  let amount :=
    if (draft.assetType = some .crypto || draft.assetType = some .stock) &&
        itemTruthyTicker draft &&
        (match draft.livePrice with
         | some lp => decide (¬ lp = 0)
         | none => false) &&
        (match draft.quantity with
         | some q => decide (¬ q = 0)
         | none => false) then
      round2 ((draft.livePrice.getD 0) * (draft.quantity.getD 0))
    else draft.amount
  { draft with
    amount := amount,
    frequency := freq,
    totalValue := (computeValues amount freq).totalValue,
    monthlyValue := (computeValues amount freq).monthlyValue }

theorem itemConsistent_saveItemUpdate (draft : BudgetItem) :
    itemConsistent (saveItemUpdate draft) := ⟨rfl, rfl⟩

theorem itemConsistent_updItem (quotes : List (String × ℚ)) (it : BudgetItem)
    (h : itemConsistent it) : itemConsistent (updItem quotes it) := by
  unfold updItem
  split
  · exact h
  · exact ⟨rfl, rfl⟩

theorem frequency_updItem (quotes : List (String × ℚ)) (it : BudgetItem) :
    (updItem quotes it).frequency = it.frequency := by
  unfold updItem
  split <;> rfl

theorem Inv_refreshPrices (b : Budget) (quotes : List (String × ℚ)) (now : ℕ)
    (h : Inv b) : Inv (refreshPrices b quotes now) := by
  unfold refreshPrices
  split
  · obtain ⟨h1, h2, h3, h4, h5, h6, h7, h8, h9⟩ := h
    exact ⟨h1, h2,
      itemsOk_map (fun i hi => itemConsistent_updItem _ _ (h3 i hi)),
      itemsOk_map (fun i hi => itemConsistent_updItem _ _ (h4 i hi)),
      itemsOk_map (fun i hi => itemConsistent_updItem _ _ (h5 i hi)),
      h6,
      allOneTime_map (fun i _ => frequency_updItem _ _) h7,
      allOneTime_map (fun i _ => frequency_updItem _ _) h8,
      allOneTime_map (fun i _ => frequency_updItem _ _) h9⟩
  · exact h

-- Claim C2 -------------------------------------------------------------------

/-- C2 (counterexample): the claim says every reachable state keeps
totalValue/monthlyValue equal to the normalizer's output.  Hydrating the
millennial preset (a cited mutation path, built with the mi helper) yields a
yearly item Bonus with amount 5000 and monthlyValue 417 (whole-dollar
Math.round), while computeValues(5000, yearly).monthlyValue = 416.67 — a
stored state inconsistent with the normalizer. -/
theorem preset_item_breaks_invariant_cex :
    ((hydrateFromInitialData { preset := some "millennial" } 0).getD
          (emptyBudget 0)).income.map (fun i => (i.amount, i.monthlyValue)) =
        [(4200, 4200), (5000, 417), (400, 400)] ∧
      (computeValues 5000 .yearly).monthlyValue = 41667/100 ∧
      ¬ (417 : ℚ) = 41667/100 := by
  have hinc : ((hydrateFromInitialData { preset := some "millennial" } 0).getD
      (emptyBudget 0)).income = millennialPreset.income := by rfl
  refine ⟨?_, ?_, by norm_num⟩
  · rw [hinc]
    norm_num [millennialPreset, mi, jsRound]
  · norm_num [computeValues, round2, jsRound]

/-- C2 (amended): the mutation paths that recompute via computeValues keep
stored state consistent with the normalizer: for every base budget whose
items are consistent and whose asset-style sections hold only OneTime items
(true of every state the app's own paths build), the whole reconciliation
pipeline (named upserts, aggregate scalings, context flags, ticker
insertion) preserves this invariant, as do the price-refresh merge and the
item-save handler; preset instantiation, however, builds yearly items whose
monthlyValue is Math.round(amount/12) in whole dollars, which differs from
the normalizer when amount/12 needs cents. -/
theorem derived_fields_invariant (base : Budget) (p : Patch)
    (quotes : List (String × ℚ)) (now : ℕ) (draft : BudgetItem) (h : Inv base) :
    Inv (reconcile base p) ∧
      Inv (refreshPrices base quotes now) ∧
      itemConsistent (saveItemUpdate draft) :=
  ⟨Inv_reconcile base p h, Inv_refreshPrices base quotes now h,
    itemConsistent_saveItemUpdate draft⟩

/-- C2 witness: derived_fields_invariant applied to the empty budget, an
arbitrary one-field patch, empty quotes, and a concrete draft. -/
theorem derived_fields_invariant_witness :
    Inv (emptyBudget 0) ∧ itemConsistent (saveItemUpdate (mia "Cash" 25)) :=
  ⟨⟨itemsOk_nil, itemsOk_nil, itemsOk_nil, itemsOk_nil, itemsOk_nil, itemsOk_nil,
      allOneTime_nil, allOneTime_nil, allOneTime_nil⟩,
    (derived_fields_invariant (emptyBudget 0) { salary := some 100 } [] 0
      (mia "Cash" 25)
      ⟨itemsOk_nil, itemsOk_nil, itemsOk_nil, itemsOk_nil, itemsOk_nil, itemsOk_nil,
        allOneTime_nil, allOneTime_nil, allOneTime_nil⟩).2.2⟩

end MyBudget
